import Mathlib

/-!
Verification development for the exterior-ballistics core of the
Ostermayer-Jagd rifle trajectory calculator
(`src/BallisticsAppV2/src/lib/ballistics.ts`).

The TypeScript source computes with IEEE-754 doubles; the shallow embedding
below uses exact real numbers (`ℝ`) for arithmetic, `Real.sqrt`, `Real.exp`,
`Real.cos`, `Real.sin` for the corresponding `Math` functions, and models the
one place where the source produces NaN: in both integration loops, when the
(relative) speed is zero the source divides `0 * 0` by `0`, which in
JavaScript yields NaN.  That NaN immediately poisons every kinematic state
variable, so the very next loop condition (`NaN < distance`) is false and the
loop exits.  The embedding represents this with an explicit
`nanOut` / `nanExit` outcome carried to the result; result fields that would
be NaN in JavaScript are `none : Option ℝ`.

The inner 2-D integrator used by the zero solver has no step bound in the
source (its loop is `while (x < distance)` only), so the embedding gives it
an explicit fuel parameter `simFuel`; the outcome `fuelOut` means the loop is
still running after `simFuel` iterations.  The main 3-D integrator has the
`t < 5` safety cap and a minimum step of 0.0005 s, so 10001 iterations always
suffice; it is run with fixed fuel 10001.

Drag tables are lists of exact rationals (the printed decimals of the
source); all other numeric literals are the source's decimal literals read
as exact rationals/reals.  The embedding assumes positive ballistic
coefficients (the data model requires BC > 0); for `bc = 0` JavaScript would
produce an infinite drag value, which this model does not represent.
-/

namespace Ballistics

open Classical

/-- Drag model selector, `'g1' | 'g7'` in `src/types` (part_004). -/
inductive DragModel where
  | g1
  | g7
deriving DecidableEq

/-- Velocity-band ballistic coefficient (`BCBand` in src/types). -/
structure BCBand where
  velocityThreshold : ℝ
  bc : ℝ

/-- Ammunition data (`AmmunitionData` in src/types).  Optional fields of the
TypeScript interface become `Option`. -/
structure AmmunitionData where
  name : String
  bulletWeight : ℝ
  ballisticCoefficient : ℝ
  bcG7 : Option ℝ
  bcBands : Option (List BCBand)
  dragModel : Option DragModel
  muzzleVelocity : ℝ

/-- Zero type: `'standard' | 'gee'`. -/
inductive ZeroType where
  | standard
  | gee
deriving DecidableEq

/-- Rifle profile (`RifleProfile` in src/types).  The interface declares
`dragModel` as required, but the engine always guards it with
`profile.dragModel || 'g1'`, so it is modelled as optional. -/
structure RifleProfile where
  id : String
  name : String
  caliber : String
  ammunition : AmmunitionData
  zeroDistance : ℝ
  zeroType : ZeroType
  sightHeight : ℝ
  dragModel : Option DragModel
  createdAt : ℝ

/-- Environmental conditions (`BallisticEnvironment` in src/types). -/
structure BallisticEnvironment where
  temperature : ℝ
  pressure : ℝ
  humidity : ℝ
  altitude : ℝ
  windSpeed : ℝ
  windAngle : ℝ

/-- Calculation result (`BallisticResult` in src/types).  Fields that can be
NaN in JavaScript (everything except `time`, see the module comment) are
`Option ℝ`, with `none` standing for NaN. -/
structure BallisticResult where
  drop : Option ℝ
  drift : Option ℝ
  time : ℝ
  velocity : Option ℝ
  energy : Option ℝ
  machAtTarget : Option ℝ

/-- Gravitational acceleration (m/s^2), `GRAVITY` in the source. -/
def GRAVITY : ℝ := 9.81

/-- Conversion factor, 1 grain = 0.0000648 kg. -/
def GRAINS_TO_KG : ℝ := 0.0000648

/-- ICAO standard air density (kg/m^3). -/
def STANDARD_AIR_DENSITY : ℝ := 1.225

/-- Drag model scaling constant K. -/
def DRAG_CONSTANT : ℝ := 0.000871

/-- G1 drag coefficient table, pairs of (Mach, Cd), from the source. -/
def G1_DRAG_TABLE : List (ℚ × ℚ) := [
  (0.00, 0.2629), (0.05, 0.2558), (0.10, 0.2487), (0.15, 0.2413), (0.20, 0.2344),
  (0.25, 0.2278), (0.30, 0.2214), (0.35, 0.2155), (0.40, 0.2104), (0.45, 0.2061),
  (0.50, 0.2032), (0.55, 0.2020), (0.60, 0.2034), (0.65, 0.2165), (0.70, 0.2230),
  (0.75, 0.2313), (0.80, 0.2417), (0.85, 0.2546), (0.90, 0.2706), (0.925, 0.2859),
  (0.95, 0.3052), (0.975, 0.3290), (1.00, 0.3576), (1.025, 0.3917), (1.05, 0.4243),
  (1.075, 0.4511), (1.10, 0.4729), (1.125, 0.4891), (1.15, 0.5014), (1.175, 0.5107),
  (1.20, 0.5180), (1.25, 0.5278), (1.30, 0.5338), (1.35, 0.5373), (1.40, 0.5392),
  (1.45, 0.5398), (1.50, 0.5396), (1.55, 0.5386), (1.60, 0.5372), (1.65, 0.5355),
  (1.70, 0.5336), (1.75, 0.5315), (1.80, 0.5294), (1.85, 0.5272), (1.90, 0.5250),
  (1.95, 0.5228), (2.00, 0.5206), (2.05, 0.5183), (2.10, 0.5162), (2.15, 0.5141),
  (2.20, 0.5121), (2.25, 0.5101), (2.30, 0.5081), (2.35, 0.5062), (2.40, 0.5043),
  (2.45, 0.5025), (2.50, 0.5007), (2.60, 0.4973), (2.70, 0.4940), (2.80, 0.4909),
  (2.90, 0.4880), (3.00, 0.4852), (3.10, 0.4825), (3.20, 0.4800), (3.30, 0.4775),
  (3.40, 0.4752), (3.50, 0.4729), (3.60, 0.4708), (3.70, 0.4687), (3.80, 0.4667),
  (3.90, 0.4648), (4.00, 0.4629), (4.20, 0.4594), (4.40, 0.4561), (4.60, 0.4531),
  (4.80, 0.4502), (5.00, 0.4474)]

/-- G7 drag coefficient table, pairs of (Mach, Cd), from the source. -/
def G7_DRAG_TABLE : List (ℚ × ℚ) := [
  (0.00, 0.1198), (0.05, 0.1197), (0.10, 0.1196), (0.15, 0.1194), (0.20, 0.1193),
  (0.25, 0.1194), (0.30, 0.1194), (0.35, 0.1194), (0.40, 0.1193), (0.45, 0.1193),
  (0.50, 0.1194), (0.55, 0.1193), (0.60, 0.1194), (0.65, 0.1197), (0.70, 0.1202),
  (0.725, 0.1207), (0.75, 0.1215), (0.775, 0.1226), (0.80, 0.1242), (0.825, 0.1266),
  (0.85, 0.1306), (0.875, 0.1368), (0.90, 0.1464), (0.925, 0.1660), (0.95, 0.2054),
  (0.975, 0.2993), (1.00, 0.3803), (1.025, 0.4015), (1.05, 0.4043), (1.075, 0.4034),
  (1.10, 0.4014), (1.125, 0.3987), (1.15, 0.3955), (1.20, 0.3884), (1.25, 0.3810),
  (1.30, 0.3732), (1.35, 0.3657), (1.40, 0.3580), (1.50, 0.3440), (1.55, 0.3376),
  (1.60, 0.3315), (1.65, 0.3260), (1.70, 0.3209), (1.75, 0.3160), (1.80, 0.3117),
  (1.85, 0.3078), (1.90, 0.3042), (1.95, 0.3010), (2.00, 0.2980), (2.05, 0.2951),
  (2.10, 0.2922), (2.15, 0.2892), (2.20, 0.2864), (2.25, 0.2835), (2.30, 0.2807),
  (2.35, 0.2779), (2.40, 0.2752), (2.45, 0.2725), (2.50, 0.2697), (2.55, 0.2670),
  (2.60, 0.2643), (2.65, 0.2615), (2.70, 0.2588), (2.75, 0.2561), (2.80, 0.2533),
  (2.85, 0.2506), (2.90, 0.2479), (2.95, 0.2451), (3.00, 0.2424), (3.50, 0.2122),
  (4.00, 0.1875), (4.50, 0.1669), (5.00, 0.1497)]

/-- Scan loop of `interpolateDragTable`: walk consecutive pairs, return the
linear interpolation on the first bracketing interval; past the end, return
the last entry's Cd (the source's fallback return). -/
noncomputable def interpAux (mach : ℝ) : List (ℚ × ℚ) → ℝ
  | [] => 0
  | [p] => (p.2 : ℝ)
  | p :: q :: rest =>
    if (p.1 : ℝ) ≤ mach ∧ mach ≤ (q.1 : ℝ) then
      (p.2 : ℝ) + ((mach - (p.1 : ℝ)) / ((q.1 : ℝ) - (p.1 : ℝ))) * ((q.2 : ℝ) - (p.2 : ℝ))
    else
      interpAux mach (q :: rest)

/-- `interpolateDragTable` from the source: clamp below the first entry and
above the last entry, otherwise linearly interpolate.  The `[]` case cannot
occur for the two concrete tables. -/
noncomputable def interpolateDragTable (mach : ℝ) (table : List (ℚ × ℚ)) : ℝ :=
  match table with
  | [] => 0
  | p :: rest =>
    if mach ≤ ((p.1 : ℚ) : ℝ) then (p.2 : ℝ)
    else if (((p :: rest).getLast (by simp)).1 : ℝ) ≤ mach then
      (((p :: rest).getLast (by simp)).2 : ℝ)
    else interpAux mach (p :: rest)

/-- `getG1DragCoefficient` from the source. -/
noncomputable def getG1DragCoefficient (mach : ℝ) : ℝ :=
  interpolateDragTable mach G1_DRAG_TABLE

/-- `getG7DragCoefficient` from the source. -/
noncomputable def getG7DragCoefficient (mach : ℝ) : ℝ :=
  interpolateDragTable mach G7_DRAG_TABLE

/-- `getDragCoefficient` from the source: dispatch on the drag model. -/
noncomputable def getDragCoefficient (mach : ℝ) (model : DragModel) : ℝ :=
  match model with
  | DragModel.g7 => getG7DragCoefficient mach
  | DragModel.g1 => getG1DragCoefficient mach

/-- The `for (const band of ammo.bcBands)` loop of `getBCForVelocity`:
first band whose threshold is at most the velocity. -/
noncomputable def bandScan (velocity : ℝ) : List BCBand → Option ℝ
  | [] => none
  | b :: rest =>
    if b.velocityThreshold ≤ velocity then some b.bc else bandScan velocity rest

/-- `getBCForVelocity` from the source.  A present, non-empty band list wins;
otherwise `bcG7` for the G7 model when provided, else the G1 BC. -/
noncomputable def getBCForVelocity (ammo : AmmunitionData) (velocity : ℝ)
    (model : DragModel) : ℝ :=
  match ammo.bcBands with
  | some (b :: bs) =>
    (match bandScan velocity (b :: bs) with
     | some bc => bc
     | none => ((b :: bs).getLast (by simp)).bc)
  | _ =>
    match model, ammo.bcG7 with
    | DragModel.g7, some bc7 => bc7
    | _, _ => ammo.ballisticCoefficient

/-- `getSpeedOfSound` from the source: `331.3 * sqrt(1 + T/273.15)`. -/
noncomputable def getSpeedOfSound (temperatureCelsius : ℝ) : ℝ :=
  331.3 * Real.sqrt (1 + temperatureCelsius / 273.15)

/-- `calculateAirDensity` from the source: virtual-temperature method with
the Buck (1981) saturation vapor pressure. -/
noncomputable def calculateAirDensity (env : BallisticEnvironment) : ℝ :=
  let T := env.temperature + 273.15
  let P := env.pressure * 100
  let es := 611.21 * Real.exp
    ((18.678 - env.temperature / 234.5) * (env.temperature / (257.14 + env.temperature)))
  let e := env.humidity * es
  let Pd := P - e
  Pd / (287.058 * T) + e / (461.495 * T)

/-- `calculateDrag` from the source:
`K * (rho/rho_std) * (Cd/BC) * v * v`. -/
noncomputable def calculateDrag (velocity bc airDensity speedOfSound : ℝ)
    (dragModel : DragModel) : ℝ :=
  DRAG_CONSTANT * (airDensity / STANDARD_AIR_DENSITY) *
    (getDragCoefficient (velocity / speedOfSound) dragModel / bc) * velocity * velocity

/-- Planar state of the zero-solver integrator. -/
structure SimState where
  x : ℝ
  y : ℝ
  vx : ℝ
  vy : ℝ

/-- Outcome of the zero-solver integration loop: a returned height, a NaN
return (zero speed caused 0/0), or fuel exhausted while the loop is still
running (the source loop has no bound of its own). -/
inductive SimOutcome where
  | out (y : ℝ)
  | nanOut
  | fuelOut

/-- Speed `v = sqrt(vx*vx + vy*vy)` of the 2-D integrator state. -/
noncomputable def simSpeed (s : SimState) : ℝ :=
  Real.sqrt (s.vx * s.vx + s.vy * s.vy)

/-- One body execution of the `while (x < distance)` loop of
`simulateTrajectoryForZero` (the non-NaN case): drag opposing the velocity
direction, gravity on `y`, forward Euler with the fixed 1 ms step. -/
noncomputable def simZeroNext (ammo : AmmunitionData)
    (airDensity speedOfSound : ℝ) (dragModel : DragModel) (s : SimState) : SimState :=
  let v := simSpeed s
  let bc := getBCForVelocity ammo v dragModel
  let drag := calculateDrag v bc airDensity speedOfSound dragModel
  let dragX := drag * s.vx / v
  let dragY := drag * s.vy / v
  let vx' := s.vx - dragX * 0.001
  let vy' := s.vy - (GRAVITY + dragY) * 0.001
  ⟨s.x + vx' * 0.001, s.y + vy' * 0.001, vx', vy'⟩

/-- The `while (x < distance)` loop of `simulateTrajectoryForZero`.  There is
no time cap in the source: the only exits are reaching the distance or the
NaN poisoning at zero speed (`v = 0` makes the drag components `0/0`). -/
noncomputable def simZeroRun (ammo : AmmunitionData)
    (distance airDensity speedOfSound : ℝ) (dragModel : DragModel) :
    ℕ → SimState → SimOutcome
  | 0, _ => SimOutcome.fuelOut
  | Nat.succ n, s =>
    if s.x < distance then
      if simSpeed s = 0 then SimOutcome.nanOut
      else simZeroRun ammo distance airDensity speedOfSound dragModel n
        (simZeroNext ammo airDensity speedOfSound dragModel s)
    else SimOutcome.out s.y

/-- `simulateTrajectoryForZero` from the source, with explicit fuel for its
unbounded loop: start at the origin with speed `muzzleVelocity` at `angle`
above horizontal and integrate with a fixed 1 ms step until `x` reaches
`distance`. -/
noncomputable def simulateTrajectoryForZero (fuel : ℕ) (ammo : AmmunitionData)
    (distance angle airDensity speedOfSound : ℝ) (dragModel : DragModel) : SimOutcome :=
  simZeroRun ammo distance airDensity speedOfSound dragModel fuel
    ⟨0, 0, ammo.muzzleVelocity * Real.cos angle, ammo.muzzleVelocity * Real.sin angle⟩

/-- The comparison `impact < targetHeight` of the bisection.  A NaN impact
compares false in JavaScript; `fuelOut` is a model artifact (the source
would not have returned). -/
def simBelow : SimOutcome → ℝ → Prop
  | SimOutcome.out y, h => y < h
  | _, _ => False

/-- The 30-iteration bisection loop of `calculateZeroAngle`, parameterised by
the remaining iteration count and the current `(low, high)` bracket. -/
noncomputable def zeroSearch (simFuel : ℕ) (ammo : AmmunitionData)
    (zeroDistance airDensity speedOfSound : ℝ) (dragModel : DragModel)
    (targetHeight : ℝ) : ℕ → ℝ × ℝ → ℝ × ℝ
  | 0, lh => lh
  | Nat.succ n, lh =>
    let mid := (lh.1 + lh.2) / 2
    if simBelow (simulateTrajectoryForZero simFuel ammo zeroDistance mid
        airDensity speedOfSound dragModel) targetHeight then
      zeroSearch simFuel ammo zeroDistance airDensity speedOfSound dragModel
        targetHeight n (mid, lh.2)
    else
      zeroSearch simFuel ammo zeroDistance airDensity speedOfSound dragModel
        targetHeight n (lh.1, mid)

/-- The expression `profile.dragModel || 'g1'`, used identically by
`calculateZeroAngle` and `calculateTrajectory`. -/
def effectiveDragModel (profile : RifleProfile) : DragModel :=
  profile.dragModel.getD DragModel.g1

/-- `calculateZeroAngle` from the source: bisection on the launch angle over
`[0, 0.02]` rad, 30 iterations, target height `sightHeight` (m) plus 0.04 m
for a GEE zero; returns the midpoint of the final bracket. -/
noncomputable def calculateZeroAngle (simFuel : ℕ) (profile : RifleProfile)
    (environment : BallisticEnvironment) : ℝ :=
  let sightHeight := profile.sightHeight / 100
  let geeOffset : ℝ := match profile.zeroType with
    | ZeroType.gee => 0.04
    | ZeroType.standard => 0
  let targetHeight := sightHeight + geeOffset
  let lh := zeroSearch simFuel profile.ammunition profile.zeroDistance
    (calculateAirDensity environment) (getSpeedOfSound environment.temperature)
    (effectiveDragModel profile) targetHeight 30 (0, 0.02)
  (lh.1 + lh.2) / 2

/-- Full 3-D state of the main integrator. -/
structure TrajState where
  x : ℝ
  y : ℝ
  z : ℝ
  vx : ℝ
  vy : ℝ
  vz : ℝ
  t : ℝ

/-- Outcome of the main integration loop: the state at loop exit, or a NaN
exit (zero relative speed caused 0/0; only the elapsed time survives as a
real number). -/
inductive TrajOutcome where
  | done (s : TrajState)
  | nanExit (t : ℝ)

/-- The elapsed time carried by a loop outcome (`t` is real even on the NaN
exit). -/
def trajOutcomeTime : TrajOutcome → ℝ
  | TrajOutcome.done s => s.t
  | TrajOutcome.nanExit t => t

/-- Relative airspeed `vRel` of the 3-D integrator: bullet velocity minus
the wind velocity (wind is horizontal only). -/
noncomputable def trajRelSpeed (headWind crossWind : ℝ) (s : TrajState) : ℝ :=
  Real.sqrt ((s.vx - headWind) * (s.vx - headWind) + s.vy * s.vy +
    (s.vz - crossWind) * (s.vz - crossWind))

/-- Adaptive timestep of the main loop: 0.5 ms in the transonic window
`0.9 < mach < 1.1`, else 1 ms. -/
noncomputable def trajDt (speedOfSound headWind crossWind : ℝ) (s : TrajState) : ℝ :=
  if 0.9 < trajRelSpeed headWind crossWind s / speedOfSound ∧
      trajRelSpeed headWind crossWind s / speedOfSound < 1.1 then 0.0005 else 0.001

/-- One body execution of the main `while` loop (the non-NaN case): drag on
the relative velocity vector, gravity on `y`, forward Euler. -/
noncomputable def trajNext (ammo : AmmunitionData)
    (airDensity speedOfSound : ℝ) (dragModel : DragModel)
    (headWind crossWind : ℝ) (s : TrajState) : TrajState :=
  let vRel := trajRelSpeed headWind crossWind s
  let dt := trajDt speedOfSound headWind crossWind s
  let bc := getBCForVelocity ammo vRel dragModel
  let drag := calculateDrag vRel bc airDensity speedOfSound dragModel
  let dragX := drag * (s.vx - headWind) / vRel
  let dragY := drag * s.vy / vRel
  let dragZ := drag * (s.vz - crossWind) / vRel
  let vx' := s.vx - dragX * dt
  let vy' := s.vy - (GRAVITY + dragY) * dt
  let vz' := s.vz - dragZ * dt
  ⟨s.x + vx' * dt, s.y + vy' * dt, s.z + vz' * dt, vx', vy', vz', s.t + dt⟩

/-- The `while (x < targetDistance && t < 5)` loop of `calculateTrajectory`:
relative-velocity wind coupling, adaptive 0.5 ms transonic step, forward
Euler.  The `t < 5` cap with minimum step 0.0005 bounds the loop by 10001
iterations, so fuel 10001 (used below) is never exhausted; fuel 0 returning
the current state is unreachable from any initial state.  A zero relative
speed makes the drag components `0/0`, NaN in JavaScript: the loop then
exits with every kinematic variable NaN and only `t` real. -/
noncomputable def trajRun (ammo : AmmunitionData)
    (targetDistance airDensity speedOfSound : ℝ) (dragModel : DragModel)
    (headWind crossWind : ℝ) : ℕ → TrajState → TrajOutcome
  | 0, s => TrajOutcome.done s
  | Nat.succ n, s =>
    if s.x < targetDistance ∧ s.t < 5 then
      if trajRelSpeed headWind crossWind s = 0 then
        TrajOutcome.nanExit (s.t + trajDt speedOfSound headWind crossWind s)
      else trajRun ammo targetDistance airDensity speedOfSound dragModel headWind crossWind n
        (trajNext ammo airDensity speedOfSound dragModel headWind crossWind s)
    else TrajOutcome.done s

/-- `Math.round` semantics: round half toward positive infinity. -/
noncomputable def jsRound (x : ℝ) : ℝ := ((⌊x + 1/2⌋ : ℤ) : ℝ)

/-- `Math.round(x * 10) / 10`, the source's 1-decimal output rounding. -/
noncomputable def roundTo1dp (x : ℝ) : ℝ := jsRound (x * 10) / 10

/-- `Math.round(x * 100) / 100`, the source's 2-decimal output rounding. -/
noncomputable def roundTo2dp (x : ℝ) : ℝ := jsRound (x * 100) / 100

/-- `Math.round(x * 1000) / 1000`, the source's 3-decimal output rounding. -/
noncomputable def roundTo3dp (x : ℝ) : ℝ := jsRound (x * 1000) / 1000

/-- `calculateTrajectory` from the source.  `simFuel` is the step budget of
the zero solver's unbounded inner loop (see the module comment); the main
loop runs with fuel 10001, which its `t < 5` cap makes sufficient. -/
noncomputable def calculateTrajectory (simFuel : ℕ) (profile : RifleProfile)
    (targetDistance : ℝ) (environment : BallisticEnvironment) : BallisticResult :=
  let ammo := profile.ammunition
  let v0 := ammo.muzzleVelocity
  let bulletMass := ammo.bulletWeight * GRAINS_TO_KG
  let sightHeight := profile.sightHeight / 100
  let dragModel := effectiveDragModel profile
  let airDensity := calculateAirDensity environment
  let speedOfSound := getSpeedOfSound environment.temperature
  let zeroAngle := calculateZeroAngle simFuel profile environment
  let windRad := environment.windAngle * Real.pi / 180
  let headWind := environment.windSpeed * Real.cos windRad
  let crossWind := environment.windSpeed * Real.sin windRad
  match trajRun ammo targetDistance airDensity speedOfSound dragModel headWind crossWind
      10001 ⟨0, -sightHeight, 0, v0 * Real.cos zeroAngle, v0 * Real.sin zeroAngle, 0, 0⟩ with
  | TrajOutcome.done s =>
    let velocity := Real.sqrt (s.vx * s.vx + s.vy * s.vy + s.vz * s.vz)
    { drop := some (roundTo1dp (-s.y * 100))
      drift := some (roundTo1dp (s.z * 100))
      time := roundTo3dp s.t
      velocity := some (jsRound velocity)
      energy := some (jsRound (0.5 * bulletMass * velocity * velocity))
      machAtTarget := some (roundTo2dp (velocity / speedOfSound)) }
  | TrajOutcome.nanExit t =>
    { drop := none
      drift := none
      time := roundTo3dp t
      velocity := none
      energy := none
      machAtTarget := none }

/-- The same computation as `calculateTrajectory` but with no output
rounding: every result field carries the raw loop-exit value. -/
noncomputable def calculateTrajectoryRaw (simFuel : ℕ) (profile : RifleProfile)
    (targetDistance : ℝ) (environment : BallisticEnvironment) : BallisticResult :=
  let ammo := profile.ammunition
  let v0 := ammo.muzzleVelocity
  let bulletMass := ammo.bulletWeight * GRAINS_TO_KG
  let sightHeight := profile.sightHeight / 100
  let dragModel := effectiveDragModel profile
  let airDensity := calculateAirDensity environment
  let speedOfSound := getSpeedOfSound environment.temperature
  let zeroAngle := calculateZeroAngle simFuel profile environment
  let windRad := environment.windAngle * Real.pi / 180
  let headWind := environment.windSpeed * Real.cos windRad
  let crossWind := environment.windSpeed * Real.sin windRad
  match trajRun ammo targetDistance airDensity speedOfSound dragModel headWind crossWind
      10001 ⟨0, -sightHeight, 0, v0 * Real.cos zeroAngle, v0 * Real.sin zeroAngle, 0, 0⟩ with
  | TrajOutcome.done s =>
    let velocity := Real.sqrt (s.vx * s.vx + s.vy * s.vy + s.vz * s.vz)
    { drop := some (-s.y * 100)
      drift := some (s.z * 100)
      time := s.t
      velocity := some velocity
      energy := some (0.5 * bulletMass * velocity * velocity)
      machAtTarget := some (velocity / speedOfSound) }
  | TrajOutcome.nanExit t =>
    { drop := none
      drift := none
      time := t
      velocity := none
      energy := none
      machAtTarget := none }

/-- Per-field application of the source's output rounding. -/
noncomputable def roundResult (r : BallisticResult) : BallisticResult :=
  { drop := r.drop.map roundTo1dp
    drift := r.drift.map roundTo1dp
    time := roundTo3dp r.time
    velocity := r.velocity.map jsRound
    energy := r.energy.map jsRound
    machAtTarget := r.machAtTarget.map roundTo2dp }

/-- JavaScript `<` on possibly-NaN values: true only when both sides are
real numbers and the first is smaller. -/
def jsLt (a b : Option ℝ) : Prop := ∃ x y, a = some x ∧ b = some y ∧ x < y

/-- A 1 m/s load: a well-formed ammunition record on which the 2-D
zero-solver integrator needs far more than 10,000 steps to cover 300 m. -/
def slowAmmo : AmmunitionData :=
  ⟨"slow test load", 178, 0.5, none, none, none, 1⟩

/-- Ammunition with zero muzzle velocity, the degenerate case of spec section 7. -/
def zeroVelAmmo : AmmunitionData :=
  ⟨"zero velocity load", 165, 0.45, none, none, none, 0⟩

/-- A profile holding the zero-velocity ammunition. -/
def zeroVelProfile : RifleProfile :=
  ⟨"p0", "zero velocity test", ".308 Win", zeroVelAmmo, 100, ZeroType.standard, 4.5,
    some DragModel.g1, 0⟩

/-- ISA conditions with no wind. -/
def calmEnv : BallisticEnvironment :=
  ⟨15, 1013.25, 0.5, 0, 0, 90⟩

/-- Ammunition whose only unusual feature is a very heavy bullet and a low
100 m/s muzzle velocity; all fields are well-formed (positive). -/
def heavyAmmo : AmmunitionData :=
  ⟨"heavy slow load", 100000, 0.5, none, none, none, 100⟩

/-- A profile with a tiny zero distance (0.09 m) and 1 cm sight height, so
that both integrators cross the target distance on their first step. -/
def heavyProfile : RifleProfile :=
  ⟨"p8", "heavy test", "test", heavyAmmo, 0.09, ZeroType.standard, 1,
    some DragModel.g1, 0⟩

/-- ISA temperature and pressure, perfectly dry air, no wind: every
atmospheric quantity except the speed of sound is rational. -/
def dryEnv : BallisticEnvironment :=
  ⟨15, 1013.25, 0, 0, 0, 0⟩

/-- Ammunition that prefers the G7 drag model. -/
def g7PrefAmmo : AmmunitionData :=
  ⟨"g7 preferred load", 178, 0.552, some 0.278, none, some DragModel.g7, 792⟩

/-- A profile that leaves its own drag model unset while its ammunition
prefers G7. -/
def noModelProfile : RifleProfile :=
  ⟨"p3", "no profile model", ".308 Win", g7PrefAmmo, 100, ZeroType.gee, 4.5,
    none, 0⟩

/-- The drag-model choice as claim C3 words it: the profile's model when
set, otherwise the ammunition's preferred model when set, otherwise G1. -/
def claimedDragModel (p : RifleProfile) : DragModel :=
  p.dragModel.getD (p.ammunition.dragModel.getD DragModel.g1)

/-- Replace only the ammunition's preferred drag model. -/
def setAmmoDragModel (a : AmmunitionData) (m : Option DragModel) : AmmunitionData :=
  { a with dragModel := m }

/-- Replace only the drag-model preference of a profile's ammunition. -/
def setProfileAmmoDragModel (p : RifleProfile) (m : Option DragModel) : RifleProfile :=
  { p with ammunition := setAmmoDragModel p.ammunition m }

/-- One bisection iteration of the zero solver, as a function on the
`(low, high)` bracket. -/
noncomputable def bisectStep (simFuel : ℕ) (ammo : AmmunitionData)
    (zeroDistance airDensity speedOfSound : ℝ) (dragModel : DragModel)
    (targetHeight : ℝ) (lh : ℝ × ℝ) : ℝ × ℝ :=
  let mid := (lh.1 + lh.2) / 2
  if simBelow (simulateTrajectoryForZero simFuel ammo zeroDistance mid
      airDensity speedOfSound dragModel) targetHeight then
    (mid, lh.2)
  else
    (lh.1, mid)

/-- Modelled from the spec (section 4.4): specific gas constant of dry air. -/
def spec_Rd : ℝ := 287.058

/-- Modelled from the spec (section 4.4): specific gas constant of water
vapor. -/
def spec_Rv : ℝ := 461.495

/-- Modelled from the spec (section 4.4): Buck 1981 saturation vapor
pressure in Pa as a function of temperature in Celsius. -/
noncomputable def spec_saturationVaporPressure (tC : ℝ) : ℝ :=
  611.21 * Real.exp ((18.678 - tC / 234.5) * (tC / (257.14 + tC)))

/-- Modelled from the spec (section 4.4): air density by the
virtual-temperature formula, pressure hPa converted to Pa, temperature
Celsius to kelvin, actual vapor pressure RH times saturation, dry partial
pressure the remainder. -/
noncomputable def specAirDensity (env : BallisticEnvironment) : ℝ :=
  let T := env.temperature + 273.15
  let P := env.pressure * 100
  let e := env.humidity * spec_saturationVaporPressure env.temperature
  let Pd := P - e
  Pd / (spec_Rd * T) + e / (spec_Rv * T)

/-- Modelled from the spec (section 4.6): the zero-angle solver as the spec
words it — bisection on the launch angle over [0, 0.02] rad, 30 iterations
of "if y(mid) is below the target height raise the lower bound, else lower
the upper bound", target height sight height (m) plus 0.04 m for GEE,
evaluated with the 2-D no-wind integrator at the zero distance, returning
the midpoint of the final bracket. -/
noncomputable def specZeroAngle (simFuel : ℕ) (p : RifleProfile)
    (env : BallisticEnvironment) : ℝ :=
  let hTarget := p.sightHeight / 100 +
    (match p.zeroType with
     | ZeroType.gee => (0.04 : ℝ)
     | ZeroType.standard => 0)
  let final := (bisectStep simFuel p.ammunition p.zeroDistance
    (calculateAirDensity env) (getSpeedOfSound env.temperature)
    (effectiveDragModel p) hTarget)^[30] (0, 0.02)
  (final.1 + final.2) / 2

/-- Modelled from the spec (section 4.7): rounding half away from zero, the
rounding mode the spec prescribes for the output boundary. -/
noncomputable def specRoundHalfAway (x : ℝ) : ℝ :=
  if x < 0 then -(((⌊-x + 1 / 2⌋ : ℤ) : ℝ)) else ((⌊x + 1 / 2⌋ : ℤ) : ℝ)

/-- `calculateZeroAngle` with the atmosphere `(airDensity, speedOfSound)`
passed explicitly, to state which atmosphere the solver runs on. -/
noncomputable def zeroAngleGiven (simFuel : ℕ) (p : RifleProfile)
    (airDensity speedOfSound : ℝ) : ℝ :=
  let sightHeight := p.sightHeight / 100
  let geeOffset : ℝ := match p.zeroType with
    | ZeroType.gee => 0.04
    | ZeroType.standard => 0
  let targetHeight := sightHeight + geeOffset
  let lh := zeroSearch simFuel p.ammunition p.zeroDistance airDensity speedOfSound
    (effectiveDragModel p) targetHeight 30 (0, 0.02)
  (lh.1 + lh.2) / 2

/-- `calculateTrajectory` with the atmosphere `(airDensity, speedOfSound)`
of the main integrator passed explicitly. -/
noncomputable def calculateTrajectoryGiven (simFuel : ℕ) (profile : RifleProfile)
    (targetDistance : ℝ) (environment : BallisticEnvironment)
    (airDensity speedOfSound : ℝ) : BallisticResult :=
  let ammo := profile.ammunition
  let v0 := ammo.muzzleVelocity
  let bulletMass := ammo.bulletWeight * GRAINS_TO_KG
  let sightHeight := profile.sightHeight / 100
  let dragModel := effectiveDragModel profile
  let zeroAngle := calculateZeroAngle simFuel profile environment
  let windRad := environment.windAngle * Real.pi / 180
  let headWind := environment.windSpeed * Real.cos windRad
  let crossWind := environment.windSpeed * Real.sin windRad
  match trajRun ammo targetDistance airDensity speedOfSound dragModel headWind crossWind
      10001 ⟨0, -sightHeight, 0, v0 * Real.cos zeroAngle, v0 * Real.sin zeroAngle, 0, 0⟩ with
  | TrajOutcome.done s =>
    let velocity := Real.sqrt (s.vx * s.vx + s.vy * s.vy + s.vz * s.vz)
    { drop := some (roundTo1dp (-s.y * 100))
      drift := some (roundTo1dp (s.z * 100))
      time := roundTo3dp s.t
      velocity := some (jsRound velocity)
      energy := some (jsRound (0.5 * bulletMass * velocity * velocity))
      machAtTarget := some (roundTo2dp (velocity / speedOfSound)) }
  | TrajOutcome.nanExit t =>
    { drop := none
      drift := none
      time := roundTo3dp t
      velocity := none
      energy := none
      machAtTarget := none }

/-- Strictly ascending Mach column, as a chain on consecutive entries. -/
def machAscending (l : List (ℚ × ℚ)) : Prop :=
  List.Chain' (fun p q : ℚ × ℚ => p.1 < q.1) l

/-- Trichotomy describing where an interpolated value comes from: clamped to
the first entry, clamped to the last entry, or between the Cd values of a
bracketing pair of consecutive table entries. -/
def bracketed (l : List (ℚ × ℚ)) (mach r : ℝ) : Prop :=
  (∃ p, l.head? = some p ∧ mach ≤ (p.1 : ℝ) ∧ r = (p.2 : ℝ)) ∨
  (∃ p, l.getLast? = some p ∧ (p.1 : ℝ) ≤ mach ∧ r = (p.2 : ℝ)) ∨
  (∃ pq ∈ l.zip l.tail, (pq.1.1 : ℝ) ≤ mach ∧ mach ≤ (pq.2.1 : ℝ) ∧
    min (pq.1.2 : ℝ) (pq.2.2 : ℝ) ≤ r ∧ r ≤ max (pq.1.2 : ℝ) (pq.2.2 : ℝ))

/-! ### One-step unfolding equations for the three loops -/

lemma simZeroRun_succ (ammo : AmmunitionData) (distance airDensity speedOfSound : ℝ)
    (dragModel : DragModel) (n : ℕ) (s : SimState) :
    simZeroRun ammo distance airDensity speedOfSound dragModel (Nat.succ n) s =
      if s.x < distance then
        if simSpeed s = 0 then SimOutcome.nanOut
        else simZeroRun ammo distance airDensity speedOfSound dragModel n
          (simZeroNext ammo airDensity speedOfSound dragModel s)
      else SimOutcome.out s.y := rfl

lemma trajRun_succ (ammo : AmmunitionData) (targetDistance airDensity speedOfSound : ℝ)
    (dragModel : DragModel) (headWind crossWind : ℝ) (n : ℕ) (s : TrajState) :
    trajRun ammo targetDistance airDensity speedOfSound dragModel headWind crossWind
        (Nat.succ n) s =
      if s.x < targetDistance ∧ s.t < 5 then
        if trajRelSpeed headWind crossWind s = 0 then
          TrajOutcome.nanExit (s.t + trajDt speedOfSound headWind crossWind s)
        else trajRun ammo targetDistance airDensity speedOfSound dragModel headWind
          crossWind n (trajNext ammo airDensity speedOfSound dragModel headWind crossWind s)
      else TrajOutcome.done s := rfl

lemma zeroSearch_succ (simFuel : ℕ) (ammo : AmmunitionData)
    (zeroDistance airDensity speedOfSound : ℝ) (dragModel : DragModel)
    (targetHeight : ℝ) (n : ℕ) (lh : ℝ × ℝ) :
    zeroSearch simFuel ammo zeroDistance airDensity speedOfSound dragModel targetHeight
        (Nat.succ n) lh =
      if simBelow (simulateTrajectoryForZero simFuel ammo zeroDistance ((lh.1 + lh.2) / 2)
          airDensity speedOfSound dragModel) targetHeight then
        zeroSearch simFuel ammo zeroDistance airDensity speedOfSound dragModel
          targetHeight n ((lh.1 + lh.2) / 2, lh.2)
      else
        zeroSearch simFuel ammo zeroDistance airDensity speedOfSound dragModel
          targetHeight n (lh.1, (lh.1 + lh.2) / 2) := rfl

/-! ### Interpolation lemmas (drag-table lookup) -/

lemma g1_machAscending : machAscending G1_DRAG_TABLE := by
  simp only [machAscending, G1_DRAG_TABLE, List.chain'_cons, List.chain'_singleton, and_true]
  norm_num

lemma g7_machAscending : machAscending G7_DRAG_TABLE := by
  simp only [machAscending, G7_DRAG_TABLE, List.chain'_cons, List.chain'_singleton, and_true]
  norm_num

lemma g1_cd_range : ∀ p ∈ G1_DRAG_TABLE, (0.2020 : ℝ) ≤ (p.2 : ℝ) ∧ (p.2 : ℝ) ≤ (0.5398 : ℝ) := by
  simp only [G1_DRAG_TABLE, List.forall_mem_cons, List.forall_mem_singleton]
  norm_num

lemma g7_cd_range : ∀ p ∈ G7_DRAG_TABLE, (0.1193 : ℝ) ≤ (p.2 : ℝ) ∧ (p.2 : ℝ) ≤ (0.4043 : ℝ) := by
  simp only [G7_DRAG_TABLE, List.forall_mem_cons, List.forall_mem_singleton]
  norm_num

lemma interpAux_span {lo hi : ℝ} :
    ∀ l : List (ℚ × ℚ), machAscending l →
      (∀ p ∈ l, lo ≤ (p.2 : ℝ) ∧ (p.2 : ℝ) ≤ hi) → l ≠ [] → ∀ mach : ℝ,
      lo ≤ interpAux mach l ∧ interpAux mach l ≤ hi
  | [], _, _, h, _ => absurd rfl h
  | [p], _, hb, _, mach => by
    simpa only [interpAux] using hb p (by simp)
  | p :: q :: rest, hc, hb, _, mach => by
    rw [machAscending, List.chain'_cons] at hc
    by_cases hbr : (p.1 : ℝ) ≤ mach ∧ mach ≤ (q.1 : ℝ)
    · simp only [interpAux, if_pos hbr]
      have hpq : ((p.1 : ℝ)) < (q.1 : ℝ) := by exact_mod_cast hc.1
      have hden : (0 : ℝ) < (q.1 : ℝ) - (p.1 : ℝ) := by linarith
      set t : ℝ := (mach - (p.1 : ℝ)) / ((q.1 : ℝ) - (p.1 : ℝ)) with ht
      have ht0 : 0 ≤ t := div_nonneg (by linarith [hbr.1]) (le_of_lt hden)
      have ht1 : t ≤ 1 := by
        rw [ht, div_le_one hden]; linarith [hbr.2]
      have h1 := hb p (by simp)
      have h2 := hb q (by simp)
      constructor
      · nlinarith [mul_nonneg ht0 (sub_nonneg.2 h2.1),
          mul_nonneg (sub_nonneg.2 ht1) (sub_nonneg.2 h1.1)]
      · nlinarith [mul_nonneg ht0 (sub_nonneg.2 h2.2),
          mul_nonneg (sub_nonneg.2 ht1) (sub_nonneg.2 h1.2)]
    · simp only [interpAux, if_neg hbr]
      exact interpAux_span (q :: rest) hc.2
        (fun r hr => hb r (List.mem_cons_of_mem _ hr)) (by simp) mach

lemma interp_table_bounds {lo hi : ℝ} (l : List (ℚ × ℚ)) (hc : machAscending l)
    (hb : ∀ p ∈ l, lo ≤ (p.2 : ℝ) ∧ (p.2 : ℝ) ≤ hi) (hne : l ≠ []) (mach : ℝ) :
    lo ≤ interpolateDragTable mach l ∧ interpolateDragTable mach l ≤ hi := by
  match l, hne with
  | p :: rest, _ =>
    simp only [interpolateDragTable]
    split
    · exact hb p (by simp)
    · split
      · exact hb _ (List.getLast_mem _)
      · exact interpAux_span (p :: rest) hc hb (by simp) mach

lemma g1_interp_bounds (mach : ℝ) :
    (0.2020 : ℝ) ≤ interpolateDragTable mach G1_DRAG_TABLE ∧
      interpolateDragTable mach G1_DRAG_TABLE ≤ (0.5398 : ℝ) :=
  interp_table_bounds G1_DRAG_TABLE g1_machAscending g1_cd_range (by simp [G1_DRAG_TABLE]) mach

lemma g7_interp_bounds (mach : ℝ) :
    (0.1193 : ℝ) ≤ interpolateDragTable mach G7_DRAG_TABLE ∧
      interpolateDragTable mach G7_DRAG_TABLE ≤ (0.4043 : ℝ) :=
  interp_table_bounds G7_DRAG_TABLE g7_machAscending g7_cd_range (by simp [G7_DRAG_TABLE]) mach

/-- Inside the table (strictly after the first Mach entry and strictly
before the last), the scan loop returns the interpolation of the first
bracketing pair of consecutive entries, and this value lies in the closed
interval spanned by the two entries' Cd values. -/
lemma interpAux_finds :
    ∀ l : List (ℚ × ℚ), l ≠ [] → machAscending l → ∀ mach : ℝ,
      (∀ p, l.head? = some p → (p.1 : ℝ) ≤ mach) →
      (∀ p, l.getLast? = some p → mach < (p.1 : ℝ)) →
      ∃ pq ∈ l.zip l.tail, (pq.1.1 : ℝ) ≤ mach ∧ mach ≤ (pq.2.1 : ℝ) ∧
        min (pq.1.2 : ℝ) (pq.2.2 : ℝ) ≤ interpAux mach l ∧
        interpAux mach l ≤ max (pq.1.2 : ℝ) (pq.2.2 : ℝ)
  | [], hne, _, mach, _, hlast => absurd rfl hne
  | [p], _, _, mach, hhead, hlast => by
    exfalso
    have h1 := hhead p (by simp)
    have h2 := hlast p (by simp)
    linarith
  | p :: q :: rest, _, hc, mach, hhead, hlast => by
    rw [machAscending, List.chain'_cons] at hc
    by_cases hbr : (p.1 : ℝ) ≤ mach ∧ mach ≤ (q.1 : ℝ)
    · refine ⟨(p, q), by simp, hbr.1, hbr.2, ?_⟩
      simp only [interpAux, if_pos hbr]
      have hpq : ((p.1 : ℝ)) < (q.1 : ℝ) := by exact_mod_cast hc.1
      have hden : (0 : ℝ) < (q.1 : ℝ) - (p.1 : ℝ) := by linarith
      set t : ℝ := (mach - (p.1 : ℝ)) / ((q.1 : ℝ) - (p.1 : ℝ)) with ht
      have ht0 : 0 ≤ t := div_nonneg (by linarith [hbr.1]) (le_of_lt hden)
      have ht1 : t ≤ 1 := by rw [ht, div_le_one hden]; linarith [hbr.2]
      have hm1 : min ((p.2 : ℝ)) ((q.2 : ℝ)) ≤ (p.2 : ℝ) := min_le_left _ _
      have hm2 : min ((p.2 : ℝ)) ((q.2 : ℝ)) ≤ (q.2 : ℝ) := min_le_right _ _
      have hM1 : (p.2 : ℝ) ≤ max ((p.2 : ℝ)) ((q.2 : ℝ)) := le_max_left _ _
      have hM2 : (q.2 : ℝ) ≤ max ((p.2 : ℝ)) ((q.2 : ℝ)) := le_max_right _ _
      constructor
      · nlinarith [mul_nonneg ht0 (sub_nonneg.2 hm2),
          mul_nonneg (sub_nonneg.2 ht1) (sub_nonneg.2 hm1)]
      · nlinarith [mul_nonneg ht0 (sub_nonneg.2 hM2),
          mul_nonneg (sub_nonneg.2 ht1) (sub_nonneg.2 hM1)]
    · have hq : (q.1 : ℝ) ≤ mach := by
        have hp := hhead p (by simp)
        by_contra hqm
        exact hbr ⟨hp, le_of_not_lt fun h => hqm (le_of_lt h)⟩
      have := interpAux_finds (q :: rest) (by simp) hc.2 mach
        (fun r hr => by simp at hr; rw [← hr]; exact hq)
        (fun r hr => hlast r (by rw [List.getLast?_cons_cons]; exact hr))
      obtain ⟨pq, hmem, h1, h2, h3, h4⟩ := this
      refine ⟨pq, ?_, h1, h2, ?_, ?_⟩
      · simpa using List.mem_cons_of_mem (p, q) hmem
      · simpa only [interpAux, if_neg hbr] using h3
      · simpa only [interpAux, if_neg hbr] using h4

lemma interp_bracketed (l : List (ℚ × ℚ)) (hne : l ≠ []) (hc : machAscending l)
    (mach : ℝ) : bracketed l mach (interpolateDragTable mach l) := by
  match l, hne with
  | p :: rest, _ =>
    simp only [interpolateDragTable]
    split
    case isTrue h =>
      exact Or.inl ⟨p, rfl, h, rfl⟩
    case isFalse h =>
      split
      case isTrue h2 =>
        exact Or.inr (Or.inl ⟨_, List.getLast?_eq_getLast _ (by simp), h2, rfl⟩)
      case isFalse h2 =>
        refine Or.inr (Or.inr (interpAux_finds (p :: rest) (by simp) hc mach ?_ ?_))
        · intro r hr
          simp only [List.head?_cons, Option.some.injEq] at hr
          rw [← hr]
          exact le_of_lt (lt_of_not_le h)
        · intro r hr
          rw [List.getLast?_eq_getLast _ (by simp), Option.some.injEq] at hr
          rw [← hr]
          exact lt_of_not_le h2

/-- C10: for every Mach input, drag-table interpolation over the G1 or G7
table returns a Cd inside the closed interval spanned by the two bracketing
entries (or the clamped end entry), and hence always within the minimum and
maximum Cd of the whole table: [0.2020, 0.5398] for G1 and [0.1193, 0.4043]
for G7.  No value outside the tabulated Cd range is ever produced, including
for Mach below the first or above the last entry. -/
theorem claim_C10_interp_within_span : ∀ mach : ℝ,
    ((0.2020 : ℝ) ≤ interpolateDragTable mach G1_DRAG_TABLE ∧
      interpolateDragTable mach G1_DRAG_TABLE ≤ (0.5398 : ℝ)) ∧
    ((0.1193 : ℝ) ≤ interpolateDragTable mach G7_DRAG_TABLE ∧
      interpolateDragTable mach G7_DRAG_TABLE ≤ (0.4043 : ℝ)) ∧
    bracketed G1_DRAG_TABLE mach (interpolateDragTable mach G1_DRAG_TABLE) ∧
    bracketed G7_DRAG_TABLE mach (interpolateDragTable mach G7_DRAG_TABLE) :=
  fun mach => ⟨g1_interp_bounds mach, g7_interp_bounds mach,
    interp_bracketed _ (by simp [G1_DRAG_TABLE]) g1_machAscending mach,
    interp_bracketed _ (by simp [G7_DRAG_TABLE]) g7_machAscending mach⟩

/-! ### The zero-solver integration loop has no time cap (claim C2) -/

lemma getBC_slowAmmo (v : ℝ) :
    getBCForVelocity slowAmmo v DragModel.g1 = 0.5 := rfl

set_option maxHeartbeats 800000 in
/-- Arithmetic of one Euler step of the 2-D integrator for the 1 m/s load:
the forward velocity stays in `(0, 1]`, the vertical speed grows by at most
`g · dt`, and `x` advances by at most 1 mm. -/
lemma c2_step_bounds (vx vy V D x nR : ℝ)
    (hvx0 : 0 < vx) (hvx1 : vx ≤ 1)
    (hb1 : -(9.81 * 0.001 * nR) ≤ vy) (hb2 : vy ≤ 9.81 * 0.001 * nR)
    (hnR0 : 0 ≤ nR) (hVpos : 0 < V) (hD0 : 0 ≤ D)
    (hDsmall : D * 0.001 ≤ 0.0001 * V) (hx : x ≤ 0.001 * nR) :
    0 < vx - D * vx / V * 0.001 ∧ vx - D * vx / V * 0.001 ≤ 1 ∧
    |vy - (GRAVITY + D * vy / V) * 0.001| ≤ 9.81 * 0.001 * (nR + 1) ∧
    x + (vx - D * vx / V * 0.001) * 0.001 ≤ 0.001 * (nR + 1) := by
  have harith : ∀ c : ℝ, D * c / V * 0.001 = c * (D * 0.001 / V) := by
    intro c
    field_simp
    ring
  have hfrac : 0 ≤ D * 0.001 / V := div_nonneg (by linarith) hVpos.le
  have hfrac2 : D * 0.001 / V ≤ 0.0001 := by
    rw [div_le_iff₀ hVpos]
    nlinarith
  have h1 : 0 < vx - D * vx / V * 0.001 := by
    rw [harith]
    nlinarith [mul_le_mul_of_nonneg_left hfrac2 hvx0.le]
  have h2 : vx - D * vx / V * 0.001 ≤ 1 := by
    rw [harith]
    nlinarith [mul_nonneg hvx0.le hfrac]
  refine ⟨h1, h2, ?_, by nlinarith⟩
  rw [abs_le]
  have hrw : vy - (GRAVITY + D * vy / V) * 0.001
      = vy * (1 - D * 0.001 / V) - 9.81 * 0.001 := by
    simp only [GRAVITY]
    field_simp
    ring
  rw [hrw]
  have h1mr0 : (0:ℝ) ≤ 1 - D * 0.001 / V := by linarith
  have hMr : 0 ≤ 9.81 * 0.001 * nR * (D * 0.001 / V) := by positivity
  constructor
  · nlinarith [mul_le_mul_of_nonneg_right hb1 h1mr0]
  · nlinarith [mul_le_mul_of_nonneg_right hb2 h1mr0]

/-- Invariant induction: starting from a state with `0 < vx ≤ 1`,
`|vy| ≤ 0.00981 n` and `x ≤ 0.001 n`, the loop guard `x < 300` stays true,
so any fuel `f` with `n + f ≤ 10000` is exhausted. -/
lemma c2_run_fuelOut : ∀ (f n : ℕ) (s : SimState),
    0 < s.vx → s.vx ≤ 1 → |s.vy| ≤ 9.81 * 0.001 * n → s.x ≤ 0.001 * n →
    n + f ≤ 10000 →
    simZeroRun slowAmmo 300 1.225 340 DragModel.g1 f s = SimOutcome.fuelOut := by
  intro f
  induction f with
  | zero => intro n s _ _ _ _ _; rfl
  | succ f ih =>
    intro n s hvx0 hvx1 hvy hx hn
    have hnR : (n : ℝ) ≤ 10000 := by
      have : n ≤ 10000 := by omega
      exact_mod_cast this
    have hnR0 : (0 : ℝ) ≤ (n : ℝ) := Nat.cast_nonneg n
    have hxlt : s.x < 300 := by nlinarith
    have hb1 : -(9.81 * 0.001 * n) ≤ s.vy := (abs_le.1 hvy).1
    have hb2 : s.vy ≤ 9.81 * 0.001 * n := (abs_le.1 hvy).2
    obtain ⟨V, hV⟩ : ∃ v, Real.sqrt (s.vx * s.vx + s.vy * s.vy) = v := ⟨_, rfl⟩
    have hVvx : s.vx ≤ V := by
      rw [← hV, show s.vx * s.vx + s.vy * s.vy = s.vx ^ 2 + s.vy ^ 2 by ring]
      calc s.vx = Real.sqrt (s.vx ^ 2) := (Real.sqrt_sq hvx0.le).symm
        _ ≤ _ := Real.sqrt_le_sqrt (by nlinarith)
    have hVpos : 0 < V := lt_of_lt_of_le hvx0 hVvx
    have hVne : ¬ V = 0 := ne_of_gt hVpos
    have hVub : V ≤ 99.2 := by
      rw [← hV, show s.vx * s.vx + s.vy * s.vy = s.vx ^ 2 + s.vy ^ 2 by ring]
      refine Real.sqrt_le_iff.2 ⟨by norm_num, ?_⟩
      nlinarith
    obtain ⟨cd, hcddef⟩ : ∃ c, interpolateDragTable (V / 340) G1_DRAG_TABLE = c := ⟨_, rfl⟩
    have hcd : (0.2020 : ℝ) ≤ cd ∧ cd ≤ (0.5398 : ℝ) := by
      rw [← hcddef]
      exact g1_interp_bounds (V / 340)
    obtain ⟨D, hDdef⟩ : ∃ d, calculateDrag V 0.5 1.225 340 DragModel.g1 = d := ⟨_, rfl⟩
    have hDeq : D = 0.001742 * cd * (V * V) := by
      rw [← hDdef]
      simp only [calculateDrag, getDragCoefficient, getG1DragCoefficient,
        DRAG_CONSTANT, STANDARD_AIR_DENSITY]
      rw [hcddef]
      ring
    have hD0 : 0 ≤ D := by
      rw [hDeq]
      have : (0:ℝ) ≤ cd := le_trans (by norm_num) hcd.1
      positivity
    have hDsmall : D * 0.001 ≤ 0.0001 * V := by
      have hcdV : cd * V ≤ 53.6 := by
        have h1 : cd * V ≤ 0.5398 * 99.2 :=
          mul_le_mul hcd.2 hVub hVpos.le (by norm_num)
        linarith
      rw [hDeq]
      nlinarith [mul_le_mul_of_nonneg_right hcdV hVpos.le]
    obtain ⟨hs1, hs2, hs3, hs4⟩ := c2_step_bounds s.vx s.vy V D s.x (n : ℝ)
      hvx0 hvx1 hb1 hb2 hnR0 hVpos hD0 hDsmall hx
    have hss : simSpeed s = V := by
      simp only [simSpeed]
      exact hV
    have hnext : simZeroNext slowAmmo 1.225 340 DragModel.g1 s =
        ⟨s.x + (s.vx - D * s.vx / V * 0.001) * 0.001,
         s.y + (s.vy - (GRAVITY + D * s.vy / V) * 0.001) * 0.001,
         s.vx - D * s.vx / V * 0.001,
         s.vy - (GRAVITY + D * s.vy / V) * 0.001⟩ := by
      simp only [simZeroNext]
      rw [hss, getBC_slowAmmo, hDdef]
    simp only [simZeroRun, if_pos hxlt, hss, if_neg hVne, hnext]
    refine ih (n + 1) _ hs1 hs2 ?_ ?_ (by omega)
    · show |s.vy - (GRAVITY + D * s.vy / V) * 0.001| ≤ 9.81 * 0.001 * ((n : ℕ) + 1 : ℕ)
      push_cast
      exact hs3
    · show s.x + (s.vx - D * s.vx / V * 0.001) * 0.001 ≤ 0.001 * ((n : ℕ) + 1 : ℕ)
      push_cast
      exact hs4

/-- C2 (code bug): the 2-D integrator of the zero solver has no 5-second cap
at all; on a 1 m/s load aimed flat at 300 m its loop is still running after
10,000 steps, because after n steps `x ≤ 0.001 n ≤ 10 m`.  (The induction
above also shows the loop never poisons: the speed stays positive.) -/
theorem claim_C2_zero_sim_loop_uncapped :
    simulateTrajectoryForZero 10000 slowAmmo 300 0 1.225 340 DragModel.g1 =
      SimOutcome.fuelOut := by
  have h0 : (⟨0, 0, slowAmmo.muzzleVelocity * Real.cos 0,
      slowAmmo.muzzleVelocity * Real.sin 0⟩ : SimState) = ⟨0, 0, 1, 0⟩ := by
    simp [slowAmmo]
  rw [simulateTrajectoryForZero, h0]
  exact c2_run_fuelOut 10000 0 ⟨0, 0, 1, 0⟩ (by norm_num) (by norm_num)
    (by simp) (by simp) (by omega)

/-! ### Zero muzzle velocity produces NaN, not the capped 5 s run (claim C1) -/

/-- With muzzle velocity 0 and wind speed 0, the very first loop iteration
of the main integrator has zero relative speed: the drag components are
`(0 * 0)/0 = NaN`, every kinematic variable becomes NaN, the loop condition
is then false, and the returned record carries NaN in every field except
`time`, which is `0 + dt = 0.001` rounded to `0.001`. -/
lemma v0zero_traj (simFuel : ℕ) (p : RifleProfile) (d : ℝ)
    (env : BallisticEnvironment) (hv0 : p.ammunition.muzzleVelocity = 0)
    (hw : env.windSpeed = 0) (hd : 0 < d) :
    calculateTrajectory simFuel p d env = ⟨none, none, 0.001, none, none, none⟩ := by
  have h1 : ∀ sh : ℝ, trajRelSpeed 0 0 (⟨0, -sh, 0, 0, 0, 0, 0⟩ : TrajState) = 0 := by
    intro sh
    simp [trajRelSpeed]
  have h2 : ∀ (c sh : ℝ), trajDt c 0 0 (⟨0, -sh, 0, 0, 0, 0, 0⟩ : TrajState) = 0.001 := by
    intro c sh
    simp only [trajDt, h1, zero_div]
    rw [if_neg (by norm_num)]
  have h3 : ∀ (ammo : AmmunitionData) (ρ c sh : ℝ) (m : DragModel),
      trajRun ammo d ρ c m 0 0 10001 (⟨0, -sh, 0, 0, 0, 0, 0⟩ : TrajState) =
        TrajOutcome.nanExit (0 + 0.001) := by
    intro ammo ρ c sh m
    rw [show (10001 : ℕ) = Nat.succ 10000 from rfl, trajRun_succ]
    rw [if_pos (⟨hd, by norm_num⟩ : ((⟨0, -sh, 0, 0, 0, 0, 0⟩ : TrajState).x < d ∧
      (⟨0, -sh, 0, 0, 0, 0, 0⟩ : TrajState).t < 5))]
    rw [if_pos (h1 sh)]
    rw [h2 c sh]
  have hround : roundTo3dp (0 + 0.001) = 0.001 := by
    rw [show (0 : ℝ) + 0.001 = 0.001 by norm_num]
    simp only [roundTo3dp, jsRound]
    rw [show (0.001 : ℝ) * 1000 + 1 / 2 = 3 / 2 by norm_num]
    rw [show ⌊(3 / 2 : ℝ)⌋ = 1 by
      rw [Int.floor_eq_iff]
      constructor
      · norm_num
      · norm_num]
    norm_num
  simp only [calculateTrajectory, hv0, hw, zero_mul]
  rw [h3 p.ammunition (calculateAirDensity env) (getSpeedOfSound env.temperature)
    (p.sightHeight / 100) (effectiveDragModel p)]
  show (⟨none, none, roundTo3dp (0 + 0.001), none, none, none⟩ : BallisticResult) = _
  rw [hround]

/-- C1 counterexample: for muzzle velocity 0 with otherwise finite,
well-formed inputs (ISA conditions, no wind, target 100 m), the result is
not the claimed finite record with `time ≈ 5.000`: instead `drop`, `drift`,
`velocity`, `energy` and `machAtTarget` are NaN (`none`) and `time` is
0.001 s — the loop exits after a single NaN-poisoned step, so the 5 s cap
never fires. -/
theorem claim_C1_counterexample :
    calculateTrajectory 1 zeroVelProfile 100 calmEnv =
      ⟨none, none, 0.001, none, none, none⟩ :=
  v0zero_traj 1 zeroVelProfile 100 calmEnv rfl rfl (by norm_num)

/-- C1 (amended): for muzzle velocity 0 and wind speed 0 and any positive
target distance, the first integration step divides by the zero relative
speed; every field except `time` is NaN (`none`) and `time = 0.001` (one
1 ms step, rounded to 3 decimals). -/
theorem claim_C1_zero_velocity_nan (simFuel : ℕ) (p : RifleProfile) (d : ℝ)
    (env : BallisticEnvironment) (hv0 : p.ammunition.muzzleVelocity = 0)
    (hw : env.windSpeed = 0) (hd : 0 < d) :
    calculateTrajectory simFuel p d env = ⟨none, none, 0.001, none, none, none⟩ :=
  v0zero_traj simFuel p d env hv0 hw hd

/-- Witness for the amended C1 at a concrete input. -/
theorem claim_C1_zero_velocity_nan_witness :
    calculateTrajectory 7 zeroVelProfile 200 calmEnv =
      ⟨none, none, 0.001, none, none, none⟩ :=
  claim_C1_zero_velocity_nan 7 zeroVelProfile 200 calmEnv rfl rfl (by norm_num)

/-- C9: `calculateTrajectory` is deterministic (equal inputs give equal
results — it is a pure function of its arguments), and the `altitude` field
of the environment is informational: two environments differing only in
altitude produce identical results, since no part of the computation reads
the field. -/
theorem claim_C9_deterministic_altitude_ignored :
    (∀ (simFuel : ℕ) (p : RifleProfile) (d : ℝ) (env : BallisticEnvironment),
      calculateTrajectory simFuel p d env = calculateTrajectory simFuel p d env) ∧
    (∀ (simFuel : ℕ) (p : RifleProfile) (d T P RH alt alt' w wa : ℝ),
      calculateTrajectory simFuel p d ⟨T, P, RH, alt, w, wa⟩ =
        calculateTrajectory simFuel p d ⟨T, P, RH, alt', w, wa⟩) :=
  ⟨fun _ _ _ _ => rfl, fun _ _ _ _ _ _ _ _ _ _ => rfl⟩

/-! ### Atmosphere sharing (claim C4) and the zero solver (claim C5) -/

/-- C4: both the zero-angle solver and the main integrator compute air
density with the same function `calculateAirDensity`, which equals the
virtual-temperature formula transcribed from the spec — Buck 1981
saturation vapor pressure, `e = RH · e_s`, `P_d = P − e`, and
`ρ = P_d/(R_d·T) + e/(R_v·T)` with `R_d = 287.058`, `R_v = 461.495`.  The
solver and the integrator also share the speed of sound
`getSpeedOfSound env.temperature`. -/
theorem claim_C4_shared_virtual_temperature_atmosphere :
    (∀ env : BallisticEnvironment, calculateAirDensity env = specAirDensity env) ∧
    (∀ (simFuel : ℕ) (p : RifleProfile) (env : BallisticEnvironment),
      calculateZeroAngle simFuel p env =
        zeroAngleGiven simFuel p (calculateAirDensity env)
          (getSpeedOfSound env.temperature)) ∧
    (∀ (simFuel : ℕ) (p : RifleProfile) (d : ℝ) (env : BallisticEnvironment),
      calculateTrajectory simFuel p d env =
        calculateTrajectoryGiven simFuel p d env (calculateAirDensity env)
          (getSpeedOfSound env.temperature)) :=
  ⟨fun _ => rfl, fun _ _ _ => rfl, fun _ _ _ _ => rfl⟩

lemma zeroSearch_eq_iterate (simFuel : ℕ) (ammo : AmmunitionData)
    (zd ρ c : ℝ) (m : DragModel) (h : ℝ) :
    ∀ (n : ℕ) (lh : ℝ × ℝ), zeroSearch simFuel ammo zd ρ c m h n lh =
      (bisectStep simFuel ammo zd ρ c m h)^[n] lh := by
  intro n
  induction n with
  | zero => intro lh; rfl
  | succ n ih =>
    intro lh
    rw [zeroSearch_succ, Function.iterate_succ_apply]
    by_cases hb : simBelow (simulateTrajectoryForZero simFuel ammo zd
      ((lh.1 + lh.2) / 2) ρ c m) h
    · rw [if_pos hb, ih]
      congr 1
      simp only [bisectStep]
      rw [if_pos hb]
    · rw [if_neg hb, ih]
      congr 1
      simp only [bisectStep]
      rw [if_neg hb]

/-- C5: the zero angle used by `calculateTrajectory` is computed exactly as
the spec describes it — 30 bisection iterations on the launch angle over
[0, 0.02] rad, using the 2-D no-wind integrator with the fixed 1 ms step,
target height `sightHeight` m for a Standard zero and `sightHeight + 0.04` m
for GEE, raising the lower bound when the simulated height at the zero
distance is below the target and otherwise lowering the upper bound, and
returning the midpoint of the final bracket. -/
theorem claim_C5_bisection_matches_spec :
    ∀ (simFuel : ℕ) (p : RifleProfile) (env : BallisticEnvironment),
      calculateZeroAngle simFuel p env = specZeroAngle simFuel p env := by
  intro simFuel p env
  simp only [calculateZeroAngle, specZeroAngle, zeroSearch_eq_iterate]

/-! ### The ammunition's drag-model preference is never consulted (claim C3) -/

@[simp] lemma setAmmo_muzzleVelocity (a : AmmunitionData) (m : Option DragModel) :
    (setAmmoDragModel a m).muzzleVelocity = a.muzzleVelocity := rfl

@[simp] lemma setAmmo_bulletWeight (a : AmmunitionData) (m : Option DragModel) :
    (setAmmoDragModel a m).bulletWeight = a.bulletWeight := rfl

@[simp] lemma getBC_setAmmo (a : AmmunitionData) (m : Option DragModel)
    (v : ℝ) (model : DragModel) :
    getBCForVelocity (setAmmoDragModel a m) v model = getBCForVelocity a v model := rfl

@[simp] lemma simZeroNext_setAmmo (a : AmmunitionData) (m : Option DragModel)
    (ρ c : ℝ) (model : DragModel) (s : SimState) :
    simZeroNext (setAmmoDragModel a m) ρ c model s = simZeroNext a ρ c model s := rfl

@[simp] lemma trajNext_setAmmo (a : AmmunitionData) (m : Option DragModel)
    (ρ c : ℝ) (model : DragModel) (hw cw : ℝ) (s : TrajState) :
    trajNext (setAmmoDragModel a m) ρ c model hw cw s = trajNext a ρ c model hw cw s := rfl

lemma simZeroRun_setAmmo (a : AmmunitionData) (m : Option DragModel)
    (d ρ c : ℝ) (model : DragModel) :
    ∀ (n : ℕ) (s : SimState), simZeroRun (setAmmoDragModel a m) d ρ c model n s =
      simZeroRun a d ρ c model n s := by
  intro n
  induction n with
  | zero => intro s; rfl
  | succ n ih =>
    intro s
    simp only [simZeroRun_succ, simZeroNext_setAmmo, ih]

lemma simulateTrajectoryForZero_setAmmo (fuel : ℕ) (a : AmmunitionData)
    (m : Option DragModel) (d ang ρ c : ℝ) (model : DragModel) :
    simulateTrajectoryForZero fuel (setAmmoDragModel a m) d ang ρ c model =
      simulateTrajectoryForZero fuel a d ang ρ c model := by
  simp only [simulateTrajectoryForZero, simZeroRun_setAmmo, setAmmo_muzzleVelocity]

lemma zeroSearch_setAmmo (simFuel : ℕ) (a : AmmunitionData) (m : Option DragModel)
    (zd ρ c : ℝ) (model : DragModel) (h : ℝ) :
    ∀ (n : ℕ) (lh : ℝ × ℝ),
      zeroSearch simFuel (setAmmoDragModel a m) zd ρ c model h n lh =
        zeroSearch simFuel a zd ρ c model h n lh := by
  intro n
  induction n with
  | zero => intro lh; rfl
  | succ n ih =>
    intro lh
    simp only [zeroSearch_succ, simulateTrajectoryForZero_setAmmo, ih]

@[simp] lemma setProfile_ammunition (p : RifleProfile) (m : Option DragModel) :
    (setProfileAmmoDragModel p m).ammunition = setAmmoDragModel p.ammunition m := rfl

@[simp] lemma setProfile_sightHeight (p : RifleProfile) (m : Option DragModel) :
    (setProfileAmmoDragModel p m).sightHeight = p.sightHeight := rfl

@[simp] lemma setProfile_zeroDistance (p : RifleProfile) (m : Option DragModel) :
    (setProfileAmmoDragModel p m).zeroDistance = p.zeroDistance := rfl

@[simp] lemma setProfile_zeroType (p : RifleProfile) (m : Option DragModel) :
    (setProfileAmmoDragModel p m).zeroType = p.zeroType := rfl

@[simp] lemma effectiveDragModel_setProfile (p : RifleProfile) (m : Option DragModel) :
    effectiveDragModel (setProfileAmmoDragModel p m) = effectiveDragModel p := rfl

lemma calculateZeroAngle_setAmmo (simFuel : ℕ) (p : RifleProfile)
    (m : Option DragModel) (env : BallisticEnvironment) :
    calculateZeroAngle simFuel (setProfileAmmoDragModel p m) env =
      calculateZeroAngle simFuel p env := by
  simp only [calculateZeroAngle, setProfile_ammunition, setProfile_sightHeight,
    setProfile_zeroDistance, setProfile_zeroType, effectiveDragModel_setProfile,
    zeroSearch_setAmmo]

lemma trajRun_setAmmo (a : AmmunitionData) (m : Option DragModel)
    (d ρ c : ℝ) (model : DragModel) (hw cw : ℝ) :
    ∀ (n : ℕ) (s : TrajState),
      trajRun (setAmmoDragModel a m) d ρ c model hw cw n s =
        trajRun a d ρ c model hw cw n s := by
  intro n
  induction n with
  | zero => intro s; rfl
  | succ n ih =>
    intro s
    simp only [trajRun_succ, trajNext_setAmmo, ih]

lemma calculateTrajectory_setAmmo (simFuel : ℕ) (p : RifleProfile)
    (m : Option DragModel) (d : ℝ) (env : BallisticEnvironment) :
    calculateTrajectory simFuel (setProfileAmmoDragModel p m) d env =
      calculateTrajectory simFuel p d env := by
  simp only [calculateTrajectory, setProfile_ammunition, setProfile_sightHeight,
    effectiveDragModel_setProfile, setAmmo_muzzleVelocity, setAmmo_bulletWeight,
    calculateZeroAngle_setAmmo, trajRun_setAmmo]

/-- C3 counterexample: on a profile whose own drag model is unset and whose
ammunition prefers G7, the engine (both the solver and the integrator, which
share `effectiveDragModel`) uses G1, not the ammunition's preferred G7 that
the claim prescribes. -/
theorem claim_C3_counterexample :
    effectiveDragModel noModelProfile = DragModel.g1 ∧
    claimedDragModel noModelProfile = DragModel.g7 ∧
    effectiveDragModel noModelProfile ≠ claimedDragModel noModelProfile :=
  ⟨rfl, rfl, by decide⟩

/-- C3 (amended): the drag model used by the zero-angle solver and the
trajectory integrator is the profile's drag model when set and otherwise G1;
the ammunition's preferred drag model is never consulted by the calculation
core — replacing it changes neither the zero angle nor the trajectory
result.  (It is applied only when profiles are constructed elsewhere in the
app.) -/
theorem claim_C3_profile_model_else_g1 :
    (∀ p : RifleProfile, effectiveDragModel p = p.dragModel.getD DragModel.g1) ∧
    (∀ (simFuel : ℕ) (p : RifleProfile) (env : BallisticEnvironment)
      (m : Option DragModel),
      calculateZeroAngle simFuel (setProfileAmmoDragModel p m) env =
        calculateZeroAngle simFuel p env) ∧
    (∀ (simFuel : ℕ) (p : RifleProfile) (d : ℝ) (env : BallisticEnvironment)
      (m : Option DragModel),
      calculateTrajectory simFuel (setProfileAmmoDragModel p m) d env =
        calculateTrajectory simFuel p d env) :=
  ⟨fun _ => rfl,
    fun simFuel p env m => calculateZeroAngle_setAmmo simFuel p m env,
    fun simFuel p d env m => calculateTrajectory_setAmmo simFuel p m d env⟩

/-! ### Output rounding (claim C7) -/

lemma jsRound_eq {x : ℝ} {z : ℤ} (h1 : (z : ℝ) ≤ x + 1 / 2)
    (h2 : x + 1 / 2 < (z : ℝ) + 1) : jsRound x = (z : ℝ) := by
  simp only [jsRound]
  exact_mod_cast congrArg (fun t : ℤ => (t : ℝ)) (Int.floor_eq_iff.2 ⟨h1, h2⟩)

/-- C7 counterexample: at the raw drop value −0.25 cm, the source's
1-decimal boundary rounding (`Math.round(x*10)/10`, half toward +∞) yields
−0.2 cm, while the claimed half-away-from-zero rounding yields −0.3 cm:
negative ties round toward zero, not away from it. -/
theorem claim_C7_counterexample :
    roundTo1dp (-(1 / 4)) = -(1 / 5) ∧
    specRoundHalfAway ((-(1 / 4)) * 10) / 10 = -(3 / 10) ∧
    roundTo1dp (-(1 / 4)) ≠ specRoundHalfAway ((-(1 / 4)) * 10) / 10 := by
  have h1 : roundTo1dp (-(1 / 4) : ℝ) = -(1 / 5) := by
    simp only [roundTo1dp]
    rw [show ((-(1 / 4) : ℝ) * 10) = -(5 / 2) by norm_num]
    rw [jsRound_eq (z := -2) (by norm_num) (by norm_num)]
    norm_num
  have h2 : specRoundHalfAway ((-(1 / 4) : ℝ) * 10) / 10 = -(3 / 10) := by
    rw [show ((-(1 / 4) : ℝ) * 10) = -(5 / 2) by norm_num]
    simp only [specRoundHalfAway]
    rw [if_pos (by norm_num : (-(5 / 2) : ℝ) < 0)]
    rw [show (-(-(5 / 2) : ℝ) + 1 / 2) = 3 by norm_num]
    rw [show ⌊(3 : ℝ)⌋ = 3 by
      rw [Int.floor_eq_iff]
      constructor <;> norm_num]
    norm_num
  exact ⟨h1, h2, by rw [h1, h2]; norm_num⟩

/-- C7 (amended): every output field is rounded exactly once, at the output
boundary, at the stated precision (drop and drift 1 dp, time 3 dp, velocity
and energy integer, machAtTarget 2 dp) — `calculateTrajectory` is exactly
the unrounded computation followed by per-field rounding — but the rounding
is JavaScript `Math.round`, half toward +∞: `−2.5` rounds to `−2` (toward
zero) and `2.5` rounds to `3`. -/
theorem claim_C7_rounded_once_half_up :
    (∀ (simFuel : ℕ) (p : RifleProfile) (d : ℝ) (env : BallisticEnvironment),
      calculateTrajectory simFuel p d env =
        roundResult (calculateTrajectoryRaw simFuel p d env)) ∧
    jsRound (-(5 / 2)) = -2 ∧ jsRound (5 / 2) = 3 := by
  refine ⟨?_, ?_, ?_⟩
  · intro simFuel p d env
    simp only [calculateTrajectory, calculateTrajectoryRaw]
    split
    next x s heq =>
      rw [heq]
      simp [roundResult]
    next x t heq =>
      rw [heq]
      simp [roundResult]
  · rw [jsRound_eq (z := -2) (by norm_num) (by norm_num)]
    norm_num
  · rw [jsRound_eq (z := 3) (by norm_num) (by norm_num)]
    norm_num

/-! ### Time of flight is monotone in the target distance (claim C6, amended) -/

lemma trajDt_pos (c hw cw : ℝ) (s : TrajState) : 0 < trajDt c hw cw s := by
  simp only [trajDt]
  split <;> norm_num

lemma trajNext_t (a : AmmunitionData) (ρ c : ℝ) (m : DragModel) (hw cw : ℝ)
    (s : TrajState) : (trajNext a ρ c m hw cw s).t = s.t + trajDt c hw cw s := rfl

lemma trajRun_time_ge (ammo : AmmunitionData) (d ρ c : ℝ) (m : DragModel)
    (hw cw : ℝ) : ∀ (n : ℕ) (s : TrajState),
    s.t ≤ trajOutcomeTime (trajRun ammo d ρ c m hw cw n s) := by
  intro n
  induction n with
  | zero => intro s; exact le_refl _
  | succ n ih =>
    intro s
    rw [trajRun_succ]
    by_cases hg : s.x < d ∧ s.t < 5
    · rw [if_pos hg]
      by_cases hrel : trajRelSpeed hw cw s = 0
      · rw [if_pos hrel]
        simp only [trajOutcomeTime]
        linarith [trajDt_pos c hw cw s]
      · rw [if_neg hrel]
        refine le_trans ?_ (ih _)
        rw [trajNext_t]
        linarith [trajDt_pos c hw cw s]
    · rw [if_neg hg]
      exact le_refl _

lemma trajRun_time_mono (ammo : AmmunitionData) (ρ c : ℝ) (m : DragModel)
    (hw cw : ℝ) {d1 d2 : ℝ} (hd : d1 ≤ d2) : ∀ (n : ℕ) (s : TrajState),
    trajOutcomeTime (trajRun ammo d1 ρ c m hw cw n s) ≤
      trajOutcomeTime (trajRun ammo d2 ρ c m hw cw n s) := by
  intro n
  induction n with
  | zero => intro s; exact le_refl _
  | succ n ih =>
    intro s
    by_cases hg1 : s.x < d1 ∧ s.t < 5
    · have hg2 : s.x < d2 ∧ s.t < 5 := ⟨lt_of_lt_of_le hg1.1 hd, hg1.2⟩
      rw [trajRun_succ, trajRun_succ, if_pos hg1, if_pos hg2]
      by_cases hrel : trajRelSpeed hw cw s = 0
      · rw [if_pos hrel, if_pos hrel]
      · rw [if_neg hrel, if_neg hrel]
        exact ih _
    · conv_lhs => rw [trajRun_succ, if_neg hg1]
      exact le_trans (le_refl s.t) (trajRun_time_ge ammo d2 ρ c m hw cw _ s)

lemma jsRound_mono {x y : ℝ} (h : x ≤ y) : jsRound x ≤ jsRound y := by
  simp only [jsRound]
  exact_mod_cast Int.floor_mono (by linarith)

lemma roundTo3dp_mono {x y : ℝ} (h : x ≤ y) : roundTo3dp x ≤ roundTo3dp y := by
  simp only [roundTo3dp]
  have := jsRound_mono (by linarith : x * 1000 ≤ y * 1000)
  linarith

lemma calcTraj_time_eq (simFuel : ℕ) (p : RifleProfile) (d : ℝ)
    (env : BallisticEnvironment) :
    (calculateTrajectory simFuel p d env).time =
      roundTo3dp (trajOutcomeTime (trajRun p.ammunition d (calculateAirDensity env)
        (getSpeedOfSound env.temperature) (effectiveDragModel p)
        (env.windSpeed * Real.cos (env.windAngle * Real.pi / 180))
        (env.windSpeed * Real.sin (env.windAngle * Real.pi / 180)) 10001
        ⟨0, -(p.sightHeight / 100), 0,
          p.ammunition.muzzleVelocity * Real.cos (calculateZeroAngle simFuel p env),
          p.ammunition.muzzleVelocity * Real.sin (calculateZeroAngle simFuel p env),
          0, 0⟩)) := by
  simp only [calculateTrajectory]
  split
  next x s heq =>
    rw [heq]
    rfl
  next x t heq =>
    rw [heq]
    rfl

/-- C6 (amended): time of flight is monotone (non-strictly) in the target
distance: the run to a nearer target is a prefix of the run to a farther
one, `t` never decreases along a run, and the 3-decimal output rounding is
monotone.  The strict inequalities of the claim fail (see the
counterexample): distinct distances can produce identical results. -/
theorem claim_C6_time_monotone (simFuel : ℕ) (p : RifleProfile)
    (env : BallisticEnvironment) (d1 d2 : ℝ) (h : d1 ≤ d2) :
    (calculateTrajectory simFuel p d1 env).time ≤
      (calculateTrajectory simFuel p d2 env).time := by
  rw [calcTraj_time_eq, calcTraj_time_eq]
  exact roundTo3dp_mono (trajRun_time_mono _ _ _ _ _ _ h 10001 _)

/-- Witness for the amended C6 at a concrete input. -/
theorem claim_C6_time_monotone_witness :
    (calculateTrajectory 1 zeroVelProfile 1 calmEnv).time ≤
      (calculateTrajectory 1 zeroVelProfile 2 calmEnv).time :=
  claim_C6_time_monotone 1 zeroVelProfile calmEnv 1 2 (by norm_num)

/-! ### Concrete evaluation of a one-step trajectory (claims C6 and C8) -/

@[simp] lemma heavyProfile_ammunition : heavyProfile.ammunition = heavyAmmo := rfl

@[simp] lemma heavyProfile_sightHeight : heavyProfile.sightHeight = 1 := rfl

@[simp] lemma heavyProfile_zeroDistance : heavyProfile.zeroDistance = 0.09 := rfl

@[simp] lemma heavyProfile_zeroType : heavyProfile.zeroType = ZeroType.standard := rfl

@[simp] lemma effectiveDragModel_heavy : effectiveDragModel heavyProfile = DragModel.g1 := rfl

@[simp] lemma heavyAmmo_muzzleVelocity : heavyAmmo.muzzleVelocity = 100 := rfl

@[simp] lemma heavyAmmo_bulletWeight : heavyAmmo.bulletWeight = 100000 := rfl

@[simp] lemma dryEnv_temperature : dryEnv.temperature = 15 := rfl

@[simp] lemma dryEnv_windSpeed : dryEnv.windSpeed = 0 := rfl

@[simp] lemma dryEnv_windAngle : dryEnv.windAngle = 0 := rfl

lemma getBC_heavyAmmo (v : ℝ) : getBCForVelocity heavyAmmo v DragModel.g1 = 0.5 := rfl

lemma speedOfSound15_bounds :
    340.2 ≤ getSpeedOfSound 15 ∧ getSpeedOfSound 15 ≤ 340.4 := by
  simp only [getSpeedOfSound]
  constructor
  · have h : (340.2 / 331.3 : ℝ) ≤ Real.sqrt (1 + 15 / 273.15) :=
      (Real.le_sqrt (by norm_num) (by norm_num)).2 (by norm_num)
    nlinarith
  · have h : Real.sqrt (1 + 15 / 273.15) ≤ 340.4 / 331.3 :=
      Real.sqrt_le_iff.2 ⟨by norm_num, by norm_num⟩
    nlinarith

lemma dryEnv_density :
    calculateAirDensity dryEnv = 101325 / (287.058 * 288.15) := by
  simp only [calculateAirDensity, dryEnv]
  norm_num

lemma g1_interp_bracket_025_030 {m : ℝ} (h1 : 0.25 < m) (h2 : m < 0.30) :
    interpolateDragTable m G1_DRAG_TABLE =
      (0.2278 : ℝ) + ((m - 0.25) / 0.05) * ((0.2214 : ℝ) - 0.2278) := by
  simp only [interpolateDragTable, G1_DRAG_TABLE]
  rw [if_neg (by push_cast; norm_num; linarith)]
  rw [if_neg (by simp only [List.getLast]; push_cast; norm_num; linarith)]
  simp only [interpAux]
  rw [if_neg (by push_cast; norm_num; intro h; linarith)]
  rw [if_neg (by push_cast; norm_num; intro h; linarith)]
  rw [if_neg (by push_cast; norm_num; intro h; linarith)]
  rw [if_neg (by push_cast; norm_num; intro h; linarith)]
  rw [if_neg (by push_cast; norm_num; intro h; linarith)]
  rw [if_pos (by push_cast; norm_num; constructor <;> linarith)]
  push_cast
  norm_num

lemma heavy_drag_bounds :
    3.8698 ≤ calculateDrag 100 0.5 (calculateAirDensity dryEnv)
        (getSpeedOfSound 15) DragModel.g1 ∧
    calculateDrag 100 0.5 (calculateAirDensity dryEnv)
        (getSpeedOfSound 15) DragModel.g1 ≤ 3.8708 := by
  obtain ⟨hc1, hc2⟩ := speedOfSound15_bounds
  obtain ⟨c, hc⟩ : ∃ c, getSpeedOfSound 15 = c := ⟨_, rfl⟩
  rw [hc] at hc1 hc2
  have hcpos : (0 : ℝ) < c := by linarith
  have hm1 : (0.25 : ℝ) < 100 / c := by
    rw [lt_div_iff hcpos]
    nlinarith
  have hm2 : 100 / c < 0.30 := by
    rw [div_lt_iff hcpos]
    nlinarith
  have hm3 : (0.29377 : ℝ) ≤ 100 / c := by
    rw [le_div_iff hcpos]
    nlinarith
  have hm4 : 100 / c ≤ 0.29395 := by
    rw [div_le_iff hcpos]
    nlinarith
  simp only [calculateDrag, getDragCoefficient, getG1DragCoefficient,
    DRAG_CONSTANT, STANDARD_AIR_DENSITY]
  rw [hc, g1_interp_bracket_025_030 hm1 hm2, dryEnv_density]
  obtain ⟨m, hm⟩ : ∃ m, (100 : ℝ) / c = m := ⟨_, rfl⟩
  rw [hm] at hm3 hm4 ⊢
  obtain ⟨r, hr⟩ : ∃ r, (101325 : ℝ) / (287.058 * 288.15) / 1.225 = r := ⟨_, rfl⟩
  have hr1 : (0.99998 : ℝ) ≤ r := by
    rw [← hr]
    norm_num
  have hr2 : r ≤ 0.99999 := by
    rw [← hr]
    norm_num
  rw [hr]
  have hdiv : (m - 0.25) / 0.05 = 20 * (m - 0.25) := by ring
  have hcd1 : (0.22217 : ℝ) ≤ 0.2278 + (m - 0.25) / 0.05 * (0.2214 - 0.2278) := by
    rw [hdiv]
    nlinarith
  have hcd2 : (0.2278 : ℝ) + (m - 0.25) / 0.05 * (0.2214 - 0.2278) ≤ 0.2222 := by
    rw [hdiv]
    nlinarith
  obtain ⟨cd, hcd⟩ : ∃ cd, (0.2278 : ℝ) + (m - 0.25) / 0.05 * (0.2214 - 0.2278) = cd := ⟨_, rfl⟩
  rw [hcd] at hcd1 hcd2 ⊢
  have hlo : (0.99998 : ℝ) * 0.22217 ≤ r * cd :=
    mul_le_mul hr1 hcd1 (by norm_num) (by linarith)
  have hhi : r * cd ≤ 0.99999 * 0.2222 :=
    mul_le_mul hr2 hcd2 (by linarith) (by norm_num)
  rw [show cd / (0.5 : ℝ) = 2 * cd by ring]
  constructor <;> nlinarith

lemma heavy_sim_out {θ ρ c D : ℝ} (h0 : 0 ≤ θ) (h1 : θ ≤ 0.02)
    (hD : calculateDrag 100 0.5 ρ c DragModel.g1 = D)
    (hD1 : 3.8698 ≤ D) (hD2 : D ≤ 3.8708) (f : ℕ) :
    ∃ y, simulateTrajectoryForZero (f + 2) heavyAmmo 0.09 θ ρ c DragModel.g1 =
      SimOutcome.out y ∧ y < 0.01 := by
  have hsin1 : Real.sin θ ≤ θ := by
    rcases eq_or_lt_of_le h0 with h | h
    · rw [← h]
      simp
    · exact le_of_lt (Real.sin_lt h)
  have hsin0 : 0 ≤ Real.sin θ :=
    Real.sin_nonneg_of_nonneg_of_le_pi h0 (by linarith [Real.pi_gt_three])
  have hcos1 : Real.cos θ ≤ 1 := Real.cos_le_one θ
  have hcos0 : (0.9997 : ℝ) ≤ Real.cos θ := by
    have h := Real.one_sub_sq_div_two_le_cos (x := θ)
    nlinarith
  have hA1 : (99.996 : ℝ) ≤ 100 - D * 0.001 := by linarith
  have hA2 : (100 : ℝ) - D * 0.001 ≤ 100 := by linarith
  simp only [simulateTrajectoryForZero, heavyAmmo_muzzleVelocity]
  rw [show f + 2 = Nat.succ (Nat.succ f) from rfl]
  rw [simZeroRun_succ]
  have hsp : simSpeed (⟨0, 0, 100 * Real.cos θ, 100 * Real.sin θ⟩ : SimState) = 100 := by
    simp only [simSpeed]
    rw [show (100 * Real.cos θ) * (100 * Real.cos θ) +
        (100 * Real.sin θ) * (100 * Real.sin θ) = 100 ^ 2 by
      nlinarith [Real.sin_sq_add_cos_sq θ]]
    rw [Real.sqrt_sq (by norm_num : (0:ℝ) ≤ 100)]
  rw [if_pos (show (⟨0, 0, 100 * Real.cos θ, 100 * Real.sin θ⟩ : SimState).x < 0.09 by
    norm_num)]
  rw [hsp]
  rw [if_neg (by norm_num : ¬ (100 : ℝ) = 0)]
  have hW : simZeroNext heavyAmmo ρ c DragModel.g1
      ⟨0, 0, 100 * Real.cos θ, 100 * Real.sin θ⟩ =
      ⟨0 + ((100 - D * 0.001) * Real.cos θ) * 0.001,
       0 + ((100 - D * 0.001) * Real.sin θ - 9.81 * 0.001) * 0.001,
       (100 - D * 0.001) * Real.cos θ,
       (100 - D * 0.001) * Real.sin θ - 9.81 * 0.001⟩ := by
    simp only [simZeroNext, hsp, getBC_heavyAmmo, hD, GRAVITY, SimState.mk.injEq]
    refine ⟨?_, ?_, ?_, ?_⟩ <;> ring
  rw [hW, simZeroRun_succ]
  have hAc : (99.96 : ℝ) ≤ (100 - D * 0.001) * Real.cos θ := by
    have h := mul_le_mul hA1 hcos0 (by norm_num) (by linarith)
    nlinarith
  rw [if_neg (show ¬ ((⟨0 + ((100 - D * 0.001) * Real.cos θ) * 0.001,
      0 + ((100 - D * 0.001) * Real.sin θ - 9.81 * 0.001) * 0.001,
      (100 - D * 0.001) * Real.cos θ,
      (100 - D * 0.001) * Real.sin θ - 9.81 * 0.001⟩ : SimState).x < 0.09) by
    show ¬ (0 + ((100 - D * 0.001) * Real.cos θ) * 0.001 < 0.09)
    push_neg
    nlinarith)]
  refine ⟨_, rfl, ?_⟩
  show 0 + ((100 - D * 0.001) * Real.sin θ - 9.81 * 0.001) * 0.001 < 0.01
  have hAs : (100 - D * 0.001) * Real.sin θ ≤ 2 := by
    have h := mul_le_mul hA2 (le_trans hsin1 h1) hsin0 (by norm_num)
    nlinarith
  nlinarith

lemma heavy_zeroSearch {ρ c D : ℝ} (hD : calculateDrag 100 0.5 ρ c DragModel.g1 = D)
    (hD1 : 3.8698 ≤ D) (hD2 : D ≤ 3.8708) (f : ℕ) :
    ∀ (n : ℕ) (lo : ℝ), 0 ≤ lo → lo < 0.02 →
      zeroSearch (f + 2) heavyAmmo 0.09 ρ c DragModel.g1 0.01 n (lo, 0.02) =
        (0.02 - (0.02 - lo) / 2 ^ n, 0.02) := by
  intro n
  induction n with
  | zero =>
    intro lo h0 h1
    show (lo, (0.02 : ℝ)) = _
    rw [Prod.mk.injEq]
    exact ⟨by rw [pow_zero, div_one]; ring, rfl⟩
  | succ n ih =>
    intro lo h0 h1
    rw [zeroSearch_succ]
    obtain ⟨y, hy, hyb⟩ := heavy_sim_out (θ := (lo + 0.02) / 2)
      (by linarith) (by linarith) hD hD1 hD2 f
    show (if simBelow (simulateTrajectoryForZero (f + 2) heavyAmmo 0.09 ((lo + 0.02) / 2)
        ρ c DragModel.g1) 0.01 then
        zeroSearch (f + 2) heavyAmmo 0.09 ρ c DragModel.g1 0.01 n ((lo + 0.02) / 2, 0.02)
      else zeroSearch (f + 2) heavyAmmo 0.09 ρ c DragModel.g1 0.01 n (lo, (lo + 0.02) / 2)) = _
    rw [hy]
    rw [if_pos (show simBelow (SimOutcome.out y) 0.01 from hyb)]
    rw [ih ((lo + 0.02) / 2) (by linarith) (by linarith)]
    rw [Prod.mk.injEq]
    refine ⟨?_, rfl⟩
    have h2n : (2 : ℝ) ^ n ≠ 0 := by positivity
    rw [pow_succ]
    field_simp
    ring

lemma heavy_zero_angle (f : ℕ) :
    calculateZeroAngle (f + 2) heavyProfile dryEnv = 0.02 - 0.02 / 2 ^ 31 := by
  obtain ⟨hD1, hD2⟩ := heavy_drag_bounds
  obtain ⟨D, hD⟩ : ∃ D, calculateDrag 100 0.5 (calculateAirDensity dryEnv)
      (getSpeedOfSound 15) DragModel.g1 = D := ⟨_, rfl⟩
  rw [hD] at hD1 hD2
  simp only [calculateZeroAngle, heavyProfile_sightHeight, heavyProfile_zeroType,
    heavyProfile_zeroDistance, heavyProfile_ammunition, effectiveDragModel_heavy,
    dryEnv_temperature]
  rw [show (1 : ℝ) / 100 + 0 = 0.01 by norm_num]
  rw [heavy_zeroSearch hD hD1 hD2 f 30 0 le_rfl (by norm_num)]
  show ((0.02 - (0.02 - 0) / 2 ^ 30) + 0.02) / 2 = 0.02 - 0.02 / 2 ^ 31
  norm_num

lemma heavy_run_done {θ ρ c D d hw cw : ℝ} (hθ0 : 0 ≤ θ) (hθ1 : θ ≤ 0.02)
    (hc1 : 340.2 ≤ c) (hc2 : c ≤ 340.4)
    (hD : calculateDrag 100 0.5 ρ c DragModel.g1 = D)
    (hD1 : 3.8698 ≤ D) (hD2 : D ≤ 3.8708)
    (hd1 : 0 < d) (hd2 : d ≤ 0.09) (hw0 : hw = 0) (cw0 : cw = 0) (sh : ℝ) :
    trajRun heavyAmmo d ρ c DragModel.g1 hw cw 10001
        ⟨0, -sh, 0, 100 * Real.cos θ, 100 * Real.sin θ, 0, 0⟩ =
      TrajOutcome.done
        ⟨(100 - D * 0.001) * Real.cos θ * 0.001,
         -sh + ((100 - D * 0.001) * Real.sin θ - 9.81 * 0.001) * 0.001,
         0,
         (100 - D * 0.001) * Real.cos θ,
         (100 - D * 0.001) * Real.sin θ - 9.81 * 0.001,
         0,
         0.001⟩ := by
  subst hw0
  subst cw0
  have hcos1 : Real.cos θ ≤ 1 := Real.cos_le_one θ
  have hcos0 : (0.9997 : ℝ) ≤ Real.cos θ := by
    have h := Real.one_sub_sq_div_two_le_cos (x := θ)
    nlinarith
  have hA1 : (99.996 : ℝ) ≤ 100 - D * 0.001 := by linarith
  have hrel : trajRelSpeed 0 0
      (⟨0, -sh, 0, 100 * Real.cos θ, 100 * Real.sin θ, 0, 0⟩ : TrajState) = 100 := by
    simp only [trajRelSpeed]
    rw [show (100 * Real.cos θ - 0) * (100 * Real.cos θ - 0) +
        (100 * Real.sin θ) * (100 * Real.sin θ) + (0 - 0) * (0 - 0) = 100 ^ 2 by
      nlinarith [Real.sin_sq_add_cos_sq θ]]
    rw [Real.sqrt_sq (by norm_num : (0:ℝ) ≤ 100)]
  have hdt : trajDt c 0 0
      (⟨0, -sh, 0, 100 * Real.cos θ, 100 * Real.sin θ, 0, 0⟩ : TrajState) = 0.001 := by
    simp only [trajDt, hrel]
    rw [if_neg]
    intro hcon
    have hlt : (100 : ℝ) / c < 0.9 := by
      rw [div_lt_iff (by linarith : (0:ℝ) < c)]
      nlinarith
    linarith [hcon.1]
  rw [show (10001 : ℕ) = Nat.succ 10000 from rfl, trajRun_succ]
  rw [if_pos (⟨hd1, by norm_num⟩ :
    ((⟨0, -sh, 0, 100 * Real.cos θ, 100 * Real.sin θ, 0, 0⟩ : TrajState).x < d ∧
     (⟨0, -sh, 0, 100 * Real.cos θ, 100 * Real.sin θ, 0, 0⟩ : TrajState).t < 5))]
  rw [hrel]
  rw [if_neg (by norm_num : ¬ (100 : ℝ) = 0)]
  have hnext : trajNext heavyAmmo ρ c DragModel.g1 0 0
      ⟨0, -sh, 0, 100 * Real.cos θ, 100 * Real.sin θ, 0, 0⟩ =
      ⟨(100 - D * 0.001) * Real.cos θ * 0.001,
       -sh + ((100 - D * 0.001) * Real.sin θ - 9.81 * 0.001) * 0.001,
       0,
       (100 - D * 0.001) * Real.cos θ,
       (100 - D * 0.001) * Real.sin θ - 9.81 * 0.001,
       0,
       0.001⟩ := by
    simp only [trajNext, hrel, hdt, getBC_heavyAmmo, hD, GRAVITY, TrajState.mk.injEq]
    refine ⟨?_, ?_, ?_, ?_, ?_, ?_, ?_⟩ <;> ring
  rw [hnext]
  rw [show (10000 : ℕ) = Nat.succ 9999 from rfl, trajRun_succ]
  rw [if_neg]
  intro hcon
  have hAc : (99.96 : ℝ) ≤ (100 - D * 0.001) * Real.cos θ := by
    have h := mul_le_mul hA1 hcos0 (by norm_num) (by linarith)
    nlinarith
  have hx : (100 - D * 0.001) * Real.cos θ * 0.001 < d := hcon.1
  nlinarith

lemma calcTraj_done (simFuel : ℕ) (p : RifleProfile) (d : ℝ) (env : BallisticEnvironment)
    (s : TrajState)
    (h : trajRun p.ammunition d (calculateAirDensity env) (getSpeedOfSound env.temperature)
        (effectiveDragModel p)
        (env.windSpeed * Real.cos (env.windAngle * Real.pi / 180))
        (env.windSpeed * Real.sin (env.windAngle * Real.pi / 180)) 10001
        ⟨0, -(p.sightHeight / 100), 0,
          p.ammunition.muzzleVelocity * Real.cos (calculateZeroAngle simFuel p env),
          p.ammunition.muzzleVelocity * Real.sin (calculateZeroAngle simFuel p env), 0, 0⟩ =
      TrajOutcome.done s) :
    calculateTrajectory simFuel p d env =
      { drop := some (roundTo1dp (-s.y * 100))
        drift := some (roundTo1dp (s.z * 100))
        time := roundTo3dp s.t
        velocity := some (jsRound (Real.sqrt (s.vx * s.vx + s.vy * s.vy + s.vz * s.vz)))
        energy := some (jsRound (0.5 * (p.ammunition.bulletWeight * GRAINS_TO_KG) *
          Real.sqrt (s.vx * s.vx + s.vy * s.vy + s.vz * s.vz) *
          Real.sqrt (s.vx * s.vx + s.vy * s.vy + s.vz * s.vz)))
        machAtTarget := some (roundTo2dp (Real.sqrt (s.vx * s.vx + s.vy * s.vy + s.vz * s.vz) /
          getSpeedOfSound env.temperature)) } := by
  simp only [calculateTrajectory]
  rw [h]

set_option maxHeartbeats 1600000 in
lemma heavy_calc (f : ℕ) {d : ℝ} (hd1 : 0 < d) (hd2 : d ≤ 0.09) :
    (calculateTrajectory (f + 2) heavyProfile d dryEnv).velocity = some 100 ∧
    (calculateTrajectory (f + 2) heavyProfile d dryEnv).energy = some 32397 := by
  obtain ⟨hD1, hD2⟩ := heavy_drag_bounds
  obtain ⟨D, hD⟩ : ∃ D, calculateDrag 100 0.5 (calculateAirDensity dryEnv)
      (getSpeedOfSound 15) DragModel.g1 = D := ⟨_, rfl⟩
  rw [hD] at hD1 hD2
  obtain ⟨hc1, hc2⟩ := speedOfSound15_bounds
  obtain ⟨θ, hθ⟩ : ∃ θ, calculateZeroAngle (f + 2) heavyProfile dryEnv = θ := ⟨_, rfl⟩
  have hθval : θ = 0.02 - 0.02 / 2 ^ 31 := by rw [← hθ, heavy_zero_angle]
  have hθlo : (0.0199999 : ℝ) ≤ θ := by rw [hθval]; norm_num
  have hθ1 : θ ≤ 0.02 := by rw [hθval]; norm_num
  have hθ0 : (0 : ℝ) ≤ θ := by linarith
  have hww : dryEnv.windSpeed * Real.cos (dryEnv.windAngle * Real.pi / 180) = 0 := by
    rw [dryEnv_windSpeed, zero_mul]
  have hcw : dryEnv.windSpeed * Real.sin (dryEnv.windAngle * Real.pi / 180) = 0 := by
    rw [dryEnv_windSpeed, zero_mul]
  have hrun := heavy_run_done (ρ := calculateAirDensity dryEnv)
      hθ0 hθ1 hc1 hc2 hD hD1 hD2 hd1 hd2 hww hcw (heavyProfile.sightHeight / 100)
  have hcalc := calcTraj_done (f + 2) heavyProfile d dryEnv
      ⟨(100 - D * 0.001) * Real.cos θ * 0.001,
       -(heavyProfile.sightHeight / 100) +
         ((100 - D * 0.001) * Real.sin θ - 9.81 * 0.001) * 0.001,
       0,
       (100 - D * 0.001) * Real.cos θ,
       (100 - D * 0.001) * Real.sin θ - 9.81 * 0.001,
       0,
       0.001⟩ (by rw [hθ]; exact hrun)
  obtain ⟨S, hS⟩ : ∃ S, (100 - D * 0.001) * Real.cos θ * ((100 - D * 0.001) * Real.cos θ) +
      ((100 - D * 0.001) * Real.sin θ - 9.81 * 0.001) *
        ((100 - D * 0.001) * Real.sin θ - 9.81 * 0.001) + (0 : ℝ) * 0 = S := ⟨_, rfl⟩
  have hpyth := Real.sin_sq_add_cos_sq θ
  have hA1 : (99.9961292 : ℝ) ≤ 100 - D * 0.001 := by linarith
  have hA2 : (100 : ℝ) - D * 0.001 ≤ 99.9961302 := by linarith
  have hsin_hi : Real.sin θ ≤ 0.02 := le_trans (le_of_lt (Real.sin_lt (by linarith))) hθ1
  have hsin_lo : (0.0199979 : ℝ) ≤ Real.sin θ := by
    have h := Real.sin_gt_sub_cube (by linarith : (0 : ℝ) < θ) (by linarith : θ ≤ 1)
    have hcube : θ ^ 3 ≤ (0.02 : ℝ) ^ 3 := pow_le_pow_left hθ0 hθ1 3
    nlinarith
  have hSeq : S = (100 - D * 0.001) ^ 2 -
      2 * (100 - D * 0.001) * (9.81 * 0.001) * Real.sin θ + (9.81 * 0.001) ^ 2 := by
    rw [← hS]
    linear_combination ((100 - D * 0.001) * (100 - D * 0.001)) * hpyth
  have hS_lo : (9999.186 : ℝ) ≤ S := by
    rw [hSeq]
    nlinarith [sq_nonneg (100 - D * 0.001 - 99.9961292),
      mul_nonneg (by linarith : (0 : ℝ) ≤ 99.9961302 - (100 - D * 0.001))
        (by linarith : (0 : ℝ) ≤ Real.sin θ - 0.0199979),
      mul_nonneg (by linarith : (0 : ℝ) ≤ 100 - D * 0.001 - 99.9961292)
        (by linarith : (0 : ℝ) ≤ 0.02 - Real.sin θ)]
  have hS_hi : S ≤ 9999.187 := by
    rw [hSeq]
    nlinarith [mul_nonneg (by linarith : (0 : ℝ) ≤ 100 - D * 0.001)
        (by linarith : (0 : ℝ) ≤ 99.9961302 - (100 - D * 0.001)),
      mul_nonneg (by linarith : (0 : ℝ) ≤ 99.9961302 - (100 - D * 0.001))
        (by linarith : (0 : ℝ) ≤ 0.02 - Real.sin θ),
      mul_nonneg (by linarith : (0 : ℝ) ≤ 100 - D * 0.001 - 99.9961292)
        (by linarith : (0 : ℝ) ≤ Real.sin θ - 0.0199979)]
  have hS0 : (0 : ℝ) ≤ S := by linarith
  have hsq1 : (99.5 : ℝ) ≤ Real.sqrt S :=
    (Real.le_sqrt (by norm_num) hS0).2 (by nlinarith)
  have hsq2 : Real.sqrt S < 100.5 :=
    (Real.sqrt_lt' (by norm_num)).2 (by nlinarith)
  have hv : jsRound (Real.sqrt S) = 100 := by
    have h := jsRound_eq (z := 100) (x := Real.sqrt S)
      (by push_cast; linarith) (by push_cast; linarith)
    rw [h]; norm_num
  have hmul : Real.sqrt S * Real.sqrt S = S := Real.mul_self_sqrt hS0
  have he : jsRound (0.5 * ((100000 : ℝ) * GRAINS_TO_KG) * Real.sqrt S * Real.sqrt S) =
      32397 := by
    have hrw : (0.5 : ℝ) * ((100000 : ℝ) * GRAINS_TO_KG) * Real.sqrt S * Real.sqrt S =
        3.24 * S := by
      rw [show (0.5 : ℝ) * ((100000 : ℝ) * GRAINS_TO_KG) * Real.sqrt S * Real.sqrt S =
          (0.5 * (100000 * GRAINS_TO_KG)) * (Real.sqrt S * Real.sqrt S) by ring, hmul]
      simp only [GRAINS_TO_KG]
      norm_num
    rw [hrw]
    have h := jsRound_eq (z := 32397) (x := 3.24 * S)
      (by push_cast; linarith) (by push_cast; linarith)
    rw [h]; norm_num
  rw [hcalc]
  constructor
  · show some (jsRound (Real.sqrt ((100 - D * 0.001) * Real.cos θ *
        ((100 - D * 0.001) * Real.cos θ) +
      ((100 - D * 0.001) * Real.sin θ - 9.81 * 0.001) *
        ((100 - D * 0.001) * Real.sin θ - 9.81 * 0.001) + (0 : ℝ) * 0))) = some 100
    rw [hS, hv]
  · show some (jsRound (0.5 * ((100000 : ℝ) * GRAINS_TO_KG) *
      Real.sqrt ((100 - D * 0.001) * Real.cos θ * ((100 - D * 0.001) * Real.cos θ) +
        ((100 - D * 0.001) * Real.sin θ - 9.81 * 0.001) *
          ((100 - D * 0.001) * Real.sin θ - 9.81 * 0.001) + (0 : ℝ) * 0) *
      Real.sqrt ((100 - D * 0.001) * Real.cos θ * ((100 - D * 0.001) * Real.cos θ) +
        ((100 - D * 0.001) * Real.sin θ - 9.81 * 0.001) *
          ((100 - D * 0.001) * Real.sin θ - 9.81 * 0.001) + (0 : ℝ) * 0))) = some 32397
    rw [hS, he]

/-- C6 counterexample: for the heavy slow test load (100 m/s muzzle velocity,
100000-grain bullet, 9 cm zero distance) in still dry air, the distances
0.05 m < 0.09 m are both crossed during the very first Euler step, so the
rounded velocity fields at the two distances are equal (both 100 m/s) and the
claimed strict inequality velocity(d1) > velocity(d2) fails. -/
theorem claim_C6_counterexample :
    (0 : ℝ) < 0.05 ∧ (0.05 : ℝ) < 0.09 ∧
    (calculateTrajectory 2 heavyProfile 0.05 dryEnv).velocity = some 100 ∧
    (calculateTrajectory 2 heavyProfile 0.09 dryEnv).velocity = some 100 ∧
    ¬ jsLt (calculateTrajectory 2 heavyProfile 0.09 dryEnv).velocity
        (calculateTrajectory 2 heavyProfile 0.05 dryEnv).velocity := by
  have h1 : (calculateTrajectory 2 heavyProfile 0.05 dryEnv).velocity = some 100 ∧
      (calculateTrajectory 2 heavyProfile 0.05 dryEnv).energy = some 32397 :=
    heavy_calc 0 (by norm_num) (by norm_num)
  have h2 : (calculateTrajectory 2 heavyProfile 0.09 dryEnv).velocity = some 100 ∧
      (calculateTrajectory 2 heavyProfile 0.09 dryEnv).energy = some 32397 :=
    heavy_calc 0 (by norm_num) (by norm_num)
  refine ⟨by norm_num, by norm_num, h1.1, h2.1, ?_⟩
  rw [h2.1, h1.1]
  rintro ⟨x, y, hx, hy, hxy⟩
  rw [← Option.some.inj hx, ← Option.some.inj hy] at hxy
  exact lt_irrefl _ hxy

/-- C8 counterexample: for the heavy slow test load at 0.09 m, the energy field
is 32397 J while the value recomputed from the result's integer-rounded
velocity field (100 m/s, giving 32400 J) differs: the source computes energy
from the un-rounded velocity magnitude, not from the rounded velocity field. -/
theorem claim_C8_counterexample :
    (calculateTrajectory 2 heavyProfile 0.09 dryEnv).energy ≠
      Option.map (fun v => jsRound (0.5 *
          (heavyProfile.ammunition.bulletWeight * GRAINS_TO_KG) * v * v))
        (calculateTrajectory 2 heavyProfile 0.09 dryEnv).velocity := by
  have h : (calculateTrajectory 2 heavyProfile 0.09 dryEnv).velocity = some 100 ∧
      (calculateTrajectory 2 heavyProfile 0.09 dryEnv).energy = some 32397 :=
    heavy_calc 0 (by norm_num) (by norm_num)
  rw [h.1, h.2]
  simp only [Option.map_some']
  have hval : (0.5 : ℝ) * (heavyProfile.ammunition.bulletWeight * GRAINS_TO_KG) *
      (100 : ℝ) * 100 = 32400 := by
    simp only [heavyProfile_ammunition, heavyAmmo_bulletWeight, GRAINS_TO_KG]
    norm_num
  rw [hval]
  rw [jsRound_eq (z := 32400) (by push_cast; norm_num) (by push_cast; norm_num)]
  simp only [ne_eq, Option.some.injEq]
  norm_num

/-- C8 (amended): the energy field equals round_to_integer(0.5 · m_bullet_kg ·
velocity²) with m_bullet_kg = grains · 0.0000648, where velocity is the
UN-rounded velocity magnitude at loop exit (the raw result's velocity field),
and machAtTarget is likewise computed from that un-rounded velocity. -/
theorem claim_C8_energy_mach_from_unrounded (simFuel : ℕ) (p : RifleProfile)
    (d : ℝ) (env : BallisticEnvironment) :
    (calculateTrajectory simFuel p d env).energy =
      Option.map
        (fun v => jsRound (0.5 * (p.ammunition.bulletWeight * GRAINS_TO_KG) * v * v))
        (calculateTrajectoryRaw simFuel p d env).velocity ∧
    (calculateTrajectory simFuel p d env).machAtTarget =
      Option.map (fun v => roundTo2dp (v / getSpeedOfSound env.temperature))
        (calculateTrajectoryRaw simFuel p d env).velocity := by
  constructor
  · simp only [calculateTrajectory, calculateTrajectoryRaw]
    split
    next x s heq =>
      rw [heq]
      rfl
    next x t heq =>
      rw [heq]
      rfl
  · simp only [calculateTrajectory, calculateTrajectoryRaw]
    split
    next x s heq =>
      rw [heq]
      rfl
    next x t heq =>
      rw [heq]
      rfl

end Ballistics
